import Mathlib

/-
Verification of the Cubase project binary scanner (reader.rs) from the
cubase-project-plugins repository.

The byte buffer is modelled as a list of natural numbers (each entry a byte
value below 256 where relevant).  Rust String values are modelled as Lean
String values; String::from_utf8_lossy is modelled byte for byte by an
explicit WHATWG-style UTF-8 decoder emitting one replacement character
U+FFFD per maximal invalid subpart, exactly as the Rust standard library
does.  Fallible functions return Except Error.
-/

namespace Cubase

/-- Error taxonomy of reader.rs (enum Error). -/
inductive Error where
  | LengthBeyondEOF
  | TokenBeyondEOF
  | CorruptProject
  | NoApplication
  | NoVersion
  | NoReleaseDate
  | NoPluginGUID
  | NoPluginName
  | NoTokenAfterPluginName
  | NoOriginalPluginName
deriving DecidableEq, Repr

/-- Metadata record of project.rs. -/
structure Metadata where
  application : String
  version : String
  release_date : String
  architecture : String
deriving DecidableEq, Repr

/-- Plugin record of project.rs: equality is componentwise on guid and name. -/
structure Plugin where
  guid : String
  name : String
deriving DecidableEq, Repr

/-- Project record of project.rs: metadata plus the deduplicated plugin set
(HashSet Plugin is modelled as Finset Plugin). -/
structure Project where
  metadata : Metadata
  plugins : Finset Plugin
deriving DecidableEq

/-- Decidable equality for Except outcomes, so that concrete runs of the
reader can be checked by evaluation. -/
instance exceptDecEq {ε α : Type} [DecidableEq ε] [DecidableEq α] :
    DecidableEq (Except ε α)
  | .error e, .error f => decidable_of_iff (e = f) (by simp)
  | .error _, .ok _ => isFalse (by simp)
  | .ok _, .error _ => isFalse (by simp)
  | .ok a, .ok b => decidable_of_iff (a = b) (by simp)

/-- Byte constant b"Plugin UID\0" of reader.rs. -/
def PLUGIN_UID_SEARCH_TERM : List Nat := [80, 108, 117, 103, 105, 110, 32, 85, 73, 68, 0]

/-- Byte constant b"PAppVersion\0" of reader.rs. -/
def APP_VERSION_SEARCH_TERM : List Nat := [80, 65, 112, 112, 86, 101, 114, 115, 105, 111, 110, 0]

/-- Tests whether a byte is a UTF-8 continuation byte (0x80 to 0xBF). -/
def isCont (b : Nat) : Bool := 128 ≤ b && b ≤ 191

/-- Valid range test for the second byte of a three byte UTF-8 sequence,
given the first byte (0xE0 restricts to 0xA0.., 0xED to ..0x9F). -/
def valid3snd (b b1 : Nat) : Bool :=
  if b = 224 then 160 ≤ b1 && b1 ≤ 191
  else if b = 237 then 128 ≤ b1 && b1 ≤ 159
  else isCont b1

/-- Valid range test for the second byte of a four byte UTF-8 sequence,
given the first byte (0xF0 restricts to 0x90.., 0xF4 to ..0x8F). -/
def valid4snd (b b1 : Nat) : Bool :=
  if b = 240 then 144 ≤ b1 && b1 ≤ 191
  else if b = 244 then 128 ≤ b1 && b1 ≤ 143
  else isCont b1

/-- Replacement character U+FFFD emitted for each maximal invalid subpart. -/
def replChar : Char := Char.ofNat 65533

/-- Lossy UTF-8 decoding of a byte list into a character list, mirroring
String::from_utf8_lossy: decode maximal valid sequences, and on an invalid or
truncated sequence emit one U+FFFD for its maximal valid prefix and resume at
the first offending byte.  The fuel argument only bounds the recursion depth:
every step consumes at least one byte, so any fuel of at least the list
length gives the same result (utf8DecodeLossy_fuel), and the kernel can
evaluate the definition on concrete bytes. -/
def utf8DecodeLossy : Nat → List Nat → List Char
  | _, [] => []
  | 0, _ :: _ => []
  | fuel + 1, b :: rest =>
    if b < 128 then Char.ofNat b :: utf8DecodeLossy fuel rest
    else if 194 ≤ b && b ≤ 223 then
      match rest with
      | b1 :: rest1 =>
        if isCont b1 then Char.ofNat ((b - 192) * 64 + (b1 - 128)) :: utf8DecodeLossy fuel rest1
        else replChar :: utf8DecodeLossy fuel rest
      | [] => [replChar]
    else if 224 ≤ b && b ≤ 239 then
      match rest with
      | b1 :: rest1 =>
        if valid3snd b b1 then
          match rest1 with
          | b2 :: rest2 =>
            if isCont b2 then
              Char.ofNat ((b - 224) * 4096 + (b1 - 128) * 64 + (b2 - 128)) ::
                utf8DecodeLossy fuel rest2
            else replChar :: utf8DecodeLossy fuel rest1
          | [] => [replChar]
        else replChar :: utf8DecodeLossy fuel rest
      | [] => [replChar]
    else if 240 ≤ b && b ≤ 244 then
      match rest with
      | b1 :: rest1 =>
        if valid4snd b b1 then
          match rest1 with
          | b2 :: rest2 =>
            if isCont b2 then
              match rest2 with
              | b3 :: rest3 =>
                if isCont b3 then
                  Char.ofNat
                      ((b - 240) * 262144 + (b1 - 128) * 4096 + (b2 - 128) * 64 + (b3 - 128)) ::
                    utf8DecodeLossy fuel rest3
                else replChar :: utf8DecodeLossy fuel rest2
              | [] => [replChar]
            else replChar :: utf8DecodeLossy fuel rest1
          | [] => [replChar]
        else replChar :: utf8DecodeLossy fuel rest
      | [] => [replChar]
    else replChar :: utf8DecodeLossy fuel rest

/-- Model of String::from_utf8_lossy on a byte list. -/
def from_utf8_lossy (bytes : List Nat) : String := String.mk (utf8DecodeLossy bytes.length bytes)

/-- Model of Reader::get_bytes: bounds-checked subslice of length len starting
at index. -/
def get_bytes (bytes : List Nat) (index len : Nat) : Option (List Nat) :=
  if bytes.length < index + len then none
  else some ((bytes.drop index).take len)

/-- Text produced by the token decoder from a payload: everything before the
first nul byte when one exists, otherwise the whole payload, lossily decoded. -/
def token_text (payload : List Nat) : String :=
  match payload.findIdx? (fun b => b == 0) with
  | some nul_index => from_utf8_lossy (payload.take nul_index)
  | none => from_utf8_lossy payload

/-- Model of Reader::get_token: read a length byte at index, then that many
payload bytes, and return the decoded text together with the consumed count. -/
def get_token (bytes : List Nat) (index : Nat) : Except Error (String × Nat) :=
  match get_bytes bytes index 1 with
  | none => .error .LengthBeyondEOF
  | some len_bytes =>
    let len := len_bytes.headD 0
    match get_bytes bytes (index + 1) len with
    | none => .error .TokenBeyondEOF
    | some token_bytes => .ok (token_text token_bytes, len + 1)

/-- Model of the version post-processing in search_metadata: the Rust code
version.strip_prefix("Version ").map(ToString::to_string).unwrap_or(version),
that is, drop a leading "Version " when present. -/
def strip_version (version : String) : String :=
  if version.data.take 8 = "Version ".data then String.mk (version.data.drop 8) else version

/-- Model of Reader::search_metadata. -/
def search_metadata (bytes : List Nat) (index : Nat) :
    Except Error (Option (Metadata × Nat)) :=
  if get_bytes bytes index APP_VERSION_SEARCH_TERM.length = some APP_VERSION_SEARCH_TERM then
    let index := index + APP_VERSION_SEARCH_TERM.length + 9
    match get_token bytes index with
    | .error _ => .error .NoApplication
    | .ok (application, len) =>
      let index := index + len + 3
      match get_token bytes index with
      | .error _ => .error .NoVersion
      | .ok (version, len) =>
        let index := index + len + 3
        let version := strip_version version
        match get_token bytes index with
        | .error _ => .error .NoReleaseDate
        | .ok (release_date, len) =>
          let index := index + len + 7
          match get_token bytes index with
          | .ok (architecture, len) =>
            .ok (some ({ application, version, release_date, architecture }, index + len))
          | .error _ =>
            .ok (some ({ application, version, release_date,
                         architecture := "Unspecified" }, index))
  else .ok none

/-- Model of Reader::search_plugin. -/
def search_plugin (bytes : List Nat) (index : Nat) :
    Except Error (Option (Plugin × Nat)) :=
  if get_bytes bytes index PLUGIN_UID_SEARCH_TERM.length = some PLUGIN_UID_SEARCH_TERM then
    let index := index + PLUGIN_UID_SEARCH_TERM.length + 22
    match get_token bytes index with
    | .error _ => .error .NoPluginGUID
    | .ok (guid, len) =>
      let index := index + len + 3
      match get_token bytes index with
      | .error _ => .error .NoPluginName
      | .ok (key, len) =>
        if key ≠ "Plugin Name" then .error .NoPluginName
        else
          let index := index + len + 5
          match get_token bytes index with
          | .error _ => .error .NoPluginName
          | .ok (name, len) =>
            let index := index + len + 3
            match get_token bytes index with
            | .error _ => .error .NoTokenAfterPluginName
            | .ok (key, len) =>
              if key = "Original Plugin Name" then
                let index := index + len + 5
                match get_token bytes index with
                | .error _ => .error .NoOriginalPluginName
                | .ok (original_name, len) =>
                  .ok (some ({ guid, name := original_name }, index + len))
              else .ok (some ({ guid, name }, index))
  else .ok none

/-- Model of the scanner loop of Reader::get_project_details: walk the buffer
from index, trying the metadata matcher (only while metadata is still missing)
and then the plugin matcher at every byte equal to the letter P; when the
cursor reaches the end of the buffer, fail with CorruptProject if no metadata
was found and otherwise return the assembled Project.  The fuel argument only
bounds the recursion depth so that the definition is structurally recursive:
the cursor strictly increases on every iteration (search_metadata_lt,
search_plugin_lt), so any fuel of at least the number of remaining bytes gives
the same result; this is proved in get_project_details_loop_fuel.  Running out
of fuel returns the same terminal answer as reaching the end of the buffer. -/
def get_project_details_loop (bytes : List Nat) (metadata : Option Metadata)
    (plugins : Finset Plugin) (index : Nat) : Nat → Except Error Project
  | 0 =>
    match metadata with
    | none => .error .CorruptProject
    | some metadata => .ok { metadata, plugins }
  | fuel + 1 =>
    if index < bytes.length then
      if bytes.getD index 0 ≠ 80 then
        get_project_details_loop bytes metadata plugins (index + 1) fuel
      else
        match (if metadata.isNone then search_metadata bytes index else .ok none) with
        | .error e => .error e
        | .ok (some (found_metadata, updated_index)) =>
          get_project_details_loop bytes (some found_metadata) plugins updated_index fuel
        | .ok none =>
          match search_plugin bytes index with
          | .error e => .error e
          | .ok (some (found_plugin, updated_index)) =>
            get_project_details_loop bytes metadata (insert found_plugin plugins)
              updated_index fuel
          | .ok none => get_project_details_loop bytes metadata plugins (index + 1) fuel
    else
      match metadata with
      | none => .error .CorruptProject
      | some metadata => .ok { metadata, plugins }

/-- Model of Reader::get_project_details: scan the whole buffer starting at
index 0 with no metadata and an empty plugin set.  The initial fuel
bytes.length is enough for the whole scan since the cursor strictly increases
on every iteration (see get_project_details_loop_fuel). -/
def get_project_details (bytes : List Nat) : Except Error Project :=
  get_project_details_loop bytes none ∅ 0 bytes.length

/-- A well-formed length-prefixed field: one length byte followed by exactly
that many payload bytes. -/
def token (payload : List Nat) : List Nat := payload.length :: payload

/-- A complete well-formed metadata region: marker, 9 padding bytes, then the
four fields with the +3, +3, +7 padding skips. -/
def metadata_block (pad9 app pad3a ver pad3b rd pad7 arch : List Nat) : List Nat :=
  APP_VERSION_SEARCH_TERM ++ pad9 ++ token app ++ pad3a ++ token ver ++ pad3b ++ token rd
    ++ pad7 ++ token arch

/-- The Metadata decoded from the four payloads of a metadata block. -/
def metadata_of (app ver rd arch : List Nat) : Metadata :=
  { application := token_text app, version := strip_version (token_text ver),
    release_date := token_text rd, architecture := token_text arch }

/-- The raw parts of one well-formed plugin record as laid out in the binary:
marker padding, the GUID, key and name fields with their padding skips, and an
Original Plugin Name key with its replacement name field. -/
structure PluginRecordParts where
  pad22 : List Nat
  guid : List Nat
  pad3 : List Nat
  key : List Nat
  pad5 : List Nat
  first_name : List Nat
  pad3b : List Nat
  okey : List Nat
  pad5b : List Nat
  orig_name : List Nat

/-- Well-formedness of the parts: padding runs have the fixed sizes expected
by the matcher, every payload fits a one-byte length, the first key decodes to
Plugin Name and the second to Original Plugin Name. -/
def plugin_record_wf (r : PluginRecordParts) : Prop :=
  r.pad22.length = 22 ∧ r.pad3.length = 3 ∧ r.pad5.length = 5 ∧ r.pad3b.length = 3 ∧
  r.pad5b.length = 5 ∧ r.guid.length < 256 ∧ r.key.length < 256 ∧
  r.first_name.length < 256 ∧ r.okey.length < 256 ∧ r.orig_name.length < 256 ∧
  token_text r.key = "Plugin Name" ∧ token_text r.okey = "Original Plugin Name"

instance (r : PluginRecordParts) : Decidable (plugin_record_wf r) := by
  unfold plugin_record_wf
  infer_instance

/-- The byte layout of one plugin record. -/
def plugin_record_block (r : PluginRecordParts) : List Nat :=
  PLUGIN_UID_SEARCH_TERM ++ r.pad22 ++ token r.guid ++ r.pad3 ++ token r.key ++ r.pad5
    ++ token r.first_name ++ r.pad3b ++ token r.okey ++ r.pad5b ++ token r.orig_name

/-- The Plugin decoded from a record: the GUID text together with the original
name text, which replaces the first decoded name. -/
def plugin_record_plugin (r : PluginRecordParts) : Plugin :=
  { guid := token_text r.guid, name := token_text r.orig_name }

/-- Whether an extraction outcome carries a Project. -/
def is_ok : Except Error Project → Bool
  | .ok _ => true
  | .error _ => false

/-- Decidable check that a marker occurs nowhere in a buffer: get_bytes never
returns it at any offset. -/
def marker_free (marker bytes : List Nat) : Bool :=
  (List.range bytes.length).all fun i =>
    !(get_bytes bytes i marker.length == some marker)

/-- A buffer consisting of the plugin marker and 22 padding bytes: it contains
no metadata marker, yet extraction does not fail with CorruptProject. -/
def no_metadata_example : List Nat := PLUGIN_UID_SEARCH_TERM ++ List.replicate 22 0

/-- A concrete metadata block whose version field carries the Version prefix. -/
def example_metadata_block : List Nat :=
  metadata_block (List.replicate 9 0) [67, 117, 98, 97, 115, 101, 0] (List.replicate 3 0)
    [86, 101, 114, 115, 105, 111, 110, 32, 54, 46, 48, 0] (List.replicate 3 0)
    [74, 97, 110, 0] (List.replicate 7 0) [87, 73, 78, 54, 52, 0]

/-- A concrete plugin record whose track name Track is overridden by the
original plugin name Hive. -/
def example_plugin_record : PluginRecordParts :=
  { pad22 := List.replicate 22 0
    guid := [71, 85, 73, 68, 49, 0]
    pad3 := List.replicate 3 0
    key := [80, 108, 117, 103, 105, 110, 32, 78, 97, 109, 101, 0]
    pad5 := List.replicate 5 0
    first_name := [84, 114, 97, 99, 107, 0]
    pad3b := List.replicate 3 0
    okey := [79, 114, 105, 103, 105, 110, 97, 108, 32, 80, 108, 117, 103, 105, 110, 32,
             78, 97, 109, 101, 0]
    pad5b := List.replicate 5 0
    orig_name := [72, 105, 118, 101, 0] }

/-- A second concrete plugin record with a distinct GUID and original name. -/
def example_plugin_record2 : PluginRecordParts :=
  { example_plugin_record with
    guid := [71, 85, 73, 68, 50, 0]
    orig_name := [69, 81, 0] }

/-- On success with a decoded record, search_metadata returns a strictly larger
cursor than the one it was given. -/
theorem search_metadata_lt {bytes : List Nat} {i : Nat} {m : Metadata} {j : Nat}
    (h : search_metadata bytes i = .ok (some (m, j))) : i < j := by
  simp only [search_metadata] at h
  split at h
  · split at h
    · exact absurd h (by simp)
    · split at h
      · exact absurd h (by simp)
      · split at h
        · exact absurd h (by simp)
        · split at h
          · simp only [Except.ok.injEq, Option.some.injEq, Prod.mk.injEq] at h
            omega
          · simp only [Except.ok.injEq, Option.some.injEq, Prod.mk.injEq] at h
            omega
  · exact absurd h (by simp)

/-- On success with a decoded record, search_plugin returns a strictly larger
cursor than the one it was given. -/
theorem search_plugin_lt {bytes : List Nat} {i : Nat} {p : Plugin} {j : Nat}
    (h : search_plugin bytes i = .ok (some (p, j))) : i < j := by
  simp only [search_plugin] at h
  split at h
  · split at h
    · exact absurd h (by simp)
    · split at h
      · exact absurd h (by simp)
      · split at h
        · exact absurd h (by simp)
        · split at h
          · exact absurd h (by simp)
          · split at h
            · exact absurd h (by simp)
            · split at h
              · split at h
                · exact absurd h (by simp)
                · simp only [Except.ok.injEq, Option.some.injEq, Prod.mk.injEq] at h
                  omega
              · simp only [Except.ok.injEq, Option.some.injEq, Prod.mk.injEq] at h
                omega
  · exact absurd h (by simp)

/-- Variant of search_metadata_lt for the guarded call made by the scanner
loop (the call is made only while no metadata has been found yet). -/
theorem search_metadata_guard_lt {bytes : List Nat} {i : Nat} {b : Bool}
    {m : Metadata} {j : Nat}
    (h : (if b then search_metadata bytes i else .ok none) = .ok (some (m, j))) :
    i < j := by
  cases b with
  | false => exact absurd h (by simp)
  | true => exact search_metadata_lt h

/-- When the cursor has reached the end of the buffer, the loop returns its
terminal answer whatever the fuel is. -/
theorem loop_terminal (bytes : List Nat) (md : Option Metadata) (pls : Finset Plugin)
    (i fuel : Nat) (h : bytes.length ≤ i) :
    get_project_details_loop bytes md pls i fuel =
      (match md with
       | none => .error .CorruptProject
       | some m => .ok { metadata := m, plugins := pls }) := by
  cases fuel with
  | zero => rfl
  | succ f =>
    simp only [get_project_details_loop]
    rw [if_neg (by omega)]

/-- A byte different from P advances the cursor by one. -/
theorem loop_skip (bytes : List Nat) (md : Option Metadata) (pls : Finset Plugin)
    (i fuel : Nat) (h : i < bytes.length) (hb : bytes.getD i 0 ≠ 80) :
    get_project_details_loop bytes md pls i (fuel + 1) =
      get_project_details_loop bytes md pls (i + 1) fuel := by
  simp only [get_project_details_loop]
  rw [if_pos h, if_pos hb]

/-- While metadata is missing, a metadata matcher failure aborts the loop. -/
theorem loop_meta_error (bytes : List Nat) (pls : Finset Plugin) (i fuel : Nat) (e : Error)
    (h : i < bytes.length) (hb : bytes.getD i 0 = 80)
    (hm : search_metadata bytes i = .error e) :
    get_project_details_loop bytes none pls i (fuel + 1) = .error e := by
  simp only [get_project_details_loop]
  rw [if_pos h, if_neg (by rw [hb]; simp)]
  simp only [Option.isNone_none, if_true]
  rw [hm]

/-- While metadata is missing, a metadata matcher success records the metadata
and moves the cursor past the decoded fields. -/
theorem loop_meta_found (bytes : List Nat) (pls : Finset Plugin) (i fuel : Nat)
    (m : Metadata) (j : Nat) (h : i < bytes.length) (hb : bytes.getD i 0 = 80)
    (hm : search_metadata bytes i = .ok (some (m, j))) :
    get_project_details_loop bytes none pls i (fuel + 1) =
      get_project_details_loop bytes (some m) pls j fuel := by
  simp only [get_project_details_loop]
  rw [if_pos h, if_neg (by rw [hb]; simp)]
  simp only [Option.isNone_none, if_true]
  rw [hm]

/-- While metadata is missing, if the metadata matcher reports no match and the
plugin matcher fails, the loop aborts. -/
theorem loop_plugin_error_of_none (bytes : List Nat) (pls : Finset Plugin) (i fuel : Nat)
    (e : Error) (h : i < bytes.length) (hb : bytes.getD i 0 = 80)
    (hm : search_metadata bytes i = .ok none) (hp : search_plugin bytes i = .error e) :
    get_project_details_loop bytes none pls i (fuel + 1) = .error e := by
  simp only [get_project_details_loop]
  rw [if_pos h, if_neg (by rw [hb]; simp)]
  simp only [Option.isNone_none, if_true]
  rw [hm, hp]

/-- While metadata is missing, if the metadata matcher reports no match and the
plugin matcher decodes a record, the plugin is inserted and the cursor moves. -/
theorem loop_plugin_found_of_none (bytes : List Nat) (pls : Finset Plugin) (i fuel : Nat)
    (p : Plugin) (j : Nat) (h : i < bytes.length) (hb : bytes.getD i 0 = 80)
    (hm : search_metadata bytes i = .ok none) (hp : search_plugin bytes i = .ok (some (p, j))) :
    get_project_details_loop bytes none pls i (fuel + 1) =
      get_project_details_loop bytes none (insert p pls) j fuel := by
  simp only [get_project_details_loop]
  rw [if_pos h, if_neg (by rw [hb]; simp)]
  simp only [Option.isNone_none, if_true]
  rw [hm, hp]

/-- While metadata is missing, if neither matcher recognizes the position, the
cursor advances by one. -/
theorem loop_no_match_of_none (bytes : List Nat) (pls : Finset Plugin) (i fuel : Nat)
    (h : i < bytes.length) (hb : bytes.getD i 0 = 80)
    (hm : search_metadata bytes i = .ok none) (hp : search_plugin bytes i = .ok none) :
    get_project_details_loop bytes none pls i (fuel + 1) =
      get_project_details_loop bytes none pls (i + 1) fuel := by
  simp only [get_project_details_loop]
  rw [if_pos h, if_neg (by rw [hb]; simp)]
  simp only [Option.isNone_none, if_true]
  rw [hm, hp]

/-- Once metadata is recorded, a plugin matcher failure aborts the loop. -/
theorem loop_plugin_error_of_some (bytes : List Nat) (pls : Finset Plugin) (i fuel : Nat)
    (m : Metadata) (e : Error) (h : i < bytes.length) (hb : bytes.getD i 0 = 80)
    (hp : search_plugin bytes i = .error e) :
    get_project_details_loop bytes (some m) pls i (fuel + 1) = .error e := by
  simp only [get_project_details_loop]
  rw [if_pos h, if_neg (by rw [hb]; simp),
    if_neg (by simp : ¬(some m).isNone = true), hp]

/-- Once metadata is recorded, a decoded plugin record is inserted and the
cursor moves past it. -/
theorem loop_plugin_found_of_some (bytes : List Nat) (pls : Finset Plugin) (i fuel : Nat)
    (m : Metadata) (p : Plugin) (j : Nat) (h : i < bytes.length) (hb : bytes.getD i 0 = 80)
    (hp : search_plugin bytes i = .ok (some (p, j))) :
    get_project_details_loop bytes (some m) pls i (fuel + 1) =
      get_project_details_loop bytes (some m) (insert p pls) j fuel := by
  simp only [get_project_details_loop]
  rw [if_pos h, if_neg (by rw [hb]; simp),
    if_neg (by simp : ¬(some m).isNone = true), hp]

/-- Once metadata is recorded, an unrecognized P byte advances the cursor by
one. -/
theorem loop_no_match_of_some (bytes : List Nat) (pls : Finset Plugin) (i fuel : Nat)
    (m : Metadata) (h : i < bytes.length) (hb : bytes.getD i 0 = 80)
    (hp : search_plugin bytes i = .ok none) :
    get_project_details_loop bytes (some m) pls i (fuel + 1) =
      get_project_details_loop bytes (some m) pls (i + 1) fuel := by
  simp only [get_project_details_loop]
  rw [if_pos h, if_neg (by rw [hb]; simp),
    if_neg (by simp : ¬(some m).isNone = true), hp]

/-- Fuel independence of the scanner loop: the cursor strictly increases on
every iteration, so any fuel of at least the number of remaining bytes yields
the same result.  This is the termination argument for the scan. -/
theorem get_project_details_loop_fuel (bytes : List Nat) :
    ∀ fuel fuel2 (md : Option Metadata) (pls : Finset Plugin) (i : Nat),
      bytes.length - i ≤ fuel → bytes.length - i ≤ fuel2 →
      get_project_details_loop bytes md pls i fuel =
        get_project_details_loop bytes md pls i fuel2 := by
  intro fuel
  induction fuel with
  | zero =>
    intro fuel2 md pls i h1 h2
    rw [loop_terminal bytes md pls i 0 (by omega), loop_terminal bytes md pls i fuel2 (by omega)]
  | succ f ih =>
    intro fuel2 md pls i h1 h2
    by_cases hlt : i < bytes.length
    · obtain ⟨f2, rfl⟩ : ∃ f2, fuel2 = f2 + 1 := ⟨fuel2 - 1, by omega⟩
      by_cases hb : bytes.getD i 0 = 80
      · cases md with
        | none =>
          cases hsm : search_metadata bytes i with
          | error e =>
            rw [loop_meta_error bytes pls i f e hlt hb hsm,
              loop_meta_error bytes pls i f2 e hlt hb hsm]
          | ok v =>
            cases v with
            | some mj =>
              obtain ⟨m, j⟩ := mj
              rw [loop_meta_found bytes pls i f m j hlt hb hsm,
                loop_meta_found bytes pls i f2 m j hlt hb hsm]
              have hij := search_metadata_lt hsm
              exact ih f2 (some m) pls j (by omega) (by omega)
            | none =>
              cases hsp : search_plugin bytes i with
              | error e =>
                rw [loop_plugin_error_of_none bytes pls i f e hlt hb hsm hsp,
                  loop_plugin_error_of_none bytes pls i f2 e hlt hb hsm hsp]
              | ok w =>
                cases w with
                | some pj =>
                  obtain ⟨p, j⟩ := pj
                  rw [loop_plugin_found_of_none bytes pls i f p j hlt hb hsm hsp,
                    loop_plugin_found_of_none bytes pls i f2 p j hlt hb hsm hsp]
                  have hij := search_plugin_lt hsp
                  exact ih f2 none (insert p pls) j (by omega) (by omega)
                | none =>
                  rw [loop_no_match_of_none bytes pls i f hlt hb hsm hsp,
                    loop_no_match_of_none bytes pls i f2 hlt hb hsm hsp]
                  exact ih f2 none pls (i + 1) (by omega) (by omega)
        | some m =>
          cases hsp : search_plugin bytes i with
          | error e =>
            rw [loop_plugin_error_of_some bytes pls i f m e hlt hb hsp,
              loop_plugin_error_of_some bytes pls i f2 m e hlt hb hsp]
          | ok w =>
            cases w with
            | some pj =>
              obtain ⟨p, j⟩ := pj
              rw [loop_plugin_found_of_some bytes pls i f m p j hlt hb hsp,
                loop_plugin_found_of_some bytes pls i f2 m p j hlt hb hsp]
              have hij := search_plugin_lt hsp
              exact ih f2 (some m) (insert p pls) j (by omega) (by omega)
            | none =>
              rw [loop_no_match_of_some bytes pls i f m hlt hb hsp,
                loop_no_match_of_some bytes pls i f2 m hlt hb hsp]
              exact ih f2 (some m) pls (i + 1) (by omega) (by omega)
      · rw [loop_skip bytes md pls i f hlt hb, loop_skip bytes md pls i f2 hlt hb]
        exact ih f2 md pls (i + 1) (by omega) (by omega)
    · rw [loop_terminal bytes md pls i (f + 1) (by omega),
        loop_terminal bytes md pls i fuel2 (by omega)]

/-- The scan result is computed with fuel equal to the buffer length, and any
larger fuel gives the same outcome. -/
theorem get_project_details_eq_loop (bytes : List Nat) (fuel : Nat)
    (h : bytes.length ≤ fuel) :
    get_project_details bytes = get_project_details_loop bytes none ∅ 0 fuel := by
  unfold get_project_details
  exact get_project_details_loop_fuel bytes bytes.length fuel none ∅ 0 (by omega) (by omega)

/-- The helper get_bytes answers none exactly when the requested slice would
run past the buffer limit. -/
theorem get_bytes_eq_none_iff (bytes : List Nat) (i l : Nat) :
    get_bytes bytes i l = none ↔ bytes.length < i + l := by
  unfold get_bytes
  split
  · simp_all
  · simp_all

/-- get_bytes returns exactly the in-bounds slice of the requested length. -/
theorem get_bytes_eq_some_iff (bytes : List Nat) (i l : Nat) (s : List Nat) :
    get_bytes bytes i l = some s ↔ i + l ≤ bytes.length ∧ s = (bytes.drop i).take l := by
  constructor
  · intro hc
    unfold get_bytes at hc
    split at hc
    · exact absurd hc (by simp)
    · rename_i hnlt
      simp only [Option.some.injEq] at hc
      exact ⟨by omega, hc.symm⟩
  · intro hc
    obtain ⟨hle, hs⟩ := hc
    unfold get_bytes
    rw [if_neg (by omega), hs]

/-- Reading a token whose length byte sits at or past the end of the buffer
fails with LengthBeyondEOF. -/
theorem get_token_eof (bytes : List Nat) (i : Nat) (h : bytes.length ≤ i) :
    get_token bytes i = .error .LengthBeyondEOF := by
  unfold get_token
  rw [(get_bytes_eq_none_iff bytes i 1).mpr (by omega)]

/-- Reading a token whose payload would run past the end of the buffer fails
with TokenBeyondEOF. -/
theorem get_token_payload_eof (bytes : List Nat) (i : Nat) (h : i < bytes.length)
    (h2 : bytes.length < i + 1 + bytes.getD i 0) :
    get_token bytes i = .error .TokenBeyondEOF := by
  unfold get_token
  have h1 : get_bytes bytes i 1 = some [bytes.getD i 0] := by
    rw [get_bytes_eq_some_iff]
    constructor
    · omega
    · rw [List.getD_eq_getElem bytes 0 h]
      exact (List.take_one_drop_eq_of_lt_length h).symm
  rw [h1]
  simp only [List.headD_cons]
  rw [(get_bytes_eq_none_iff bytes (i + 1) (bytes.getD i 0)).mpr (by omega)]

/-- Reading a well-formed token placed directly after a prefix returns its
decoded text and consumed byte count, whatever follows it. -/
theorem get_token_at (pre p suf : List Nat) :
    get_token (pre ++ token p ++ suf) pre.length = .ok (token_text p, p.length + 1) := by
  have h1 : get_bytes (pre ++ token p ++ suf) pre.length 1 = some [p.length] := by
    rw [get_bytes_eq_some_iff]
    constructor
    · simp [token]
    · rw [List.append_assoc, List.drop_left]
      simp [token]
  have h2 : get_bytes (pre ++ token p ++ suf) (pre.length + 1) p.length = some p := by
    rw [get_bytes_eq_some_iff]
    constructor
    · simp [token]
      omega
    · have e : pre ++ token p ++ suf = (pre ++ [p.length]) ++ (p ++ suf) := by simp [token]
      have hl : pre.length + 1 = (pre ++ [p.length]).length := by simp
      rw [e, hl, List.drop_left, List.take_left]
  unfold get_token
  rw [h1]
  simp only [List.headD_cons]
  rw [h2]

/-- A marker placed at the start of the buffer is read back exactly by
get_bytes. -/
theorem get_bytes_marker_zero (marker suf : List Nat) :
    get_bytes (marker ++ suf) 0 marker.length = some marker := by
  rw [get_bytes_eq_some_iff]
  constructor
  · simp
  · rw [List.drop_zero, List.take_left]

/-- A buffer starting with the plugin marker does not match the metadata
marker: the two constants differ at their second byte. -/
theorem search_metadata_at_plugin_marker (suf : List Nat) :
    search_metadata (PLUGIN_UID_SEARCH_TERM ++ suf) 0 = .ok none := by
  simp only [search_metadata]
  rw [if_neg ?hne]
  case hne =>
    intro hc
    unfold get_bytes at hc
    split at hc
    · exact absurd hc (by simp)
    · simp only [Option.some.injEq] at hc
      rw [List.drop_zero] at hc
      have h11 := congrArg (List.take 11) hc
      rw [List.take_take] at h11
      rw [List.take_left' (by decide)] at h11
      exact absurd h11 (by decide)

/-- Partial evaluation of the metadata matcher on a buffer that starts with
the marker, the 9 padding bytes, three well-formed fields with their padding
skips, and then anything: the first three fields decode as stated and the
outcome only depends on the token read at the architecture position. -/
theorem search_metadata_eval (pad9 app pad3a ver pad3b rd pad7 rest : List Nat)
    (h9 : pad9.length = 9) (h3a : pad3a.length = 3) (h3b : pad3b.length = 3)
    (h7 : pad7.length = 7) :
    search_metadata (APP_VERSION_SEARCH_TERM ++ pad9 ++ token app ++ pad3a ++ token ver
        ++ pad3b ++ token rd ++ pad7 ++ rest) 0 =
      match get_token (APP_VERSION_SEARCH_TERM ++ pad9 ++ token app ++ pad3a ++ token ver
          ++ pad3b ++ token rd ++ pad7 ++ rest)
          (21 + (app.length + 1) + 3 + (ver.length + 1) + 3 + (rd.length + 1) + 7) with
      | .ok (architecture, len) =>
        .ok (some ({ application := token_text app,
                     version := strip_version (token_text ver),
                     release_date := token_text rd, architecture },
          21 + (app.length + 1) + 3 + (ver.length + 1) + 3 + (rd.length + 1) + 7 + len))
      | .error _ =>
        .ok (some ({ application := token_text app,
                     version := strip_version (token_text ver),
                     release_date := token_text rd, architecture := "Unspecified" },
          21 + (app.length + 1) + 3 + (ver.length + 1) + 3 + (rd.length + 1) + 7)) := by
  have hmarker : get_bytes (APP_VERSION_SEARCH_TERM ++ pad9 ++ token app ++ pad3a ++ token ver
      ++ pad3b ++ token rd ++ pad7 ++ rest) 0 APP_VERSION_SEARCH_TERM.length
      = some APP_VERSION_SEARCH_TERM := by
    rw [show APP_VERSION_SEARCH_TERM ++ pad9 ++ token app ++ pad3a ++ token ver
        ++ pad3b ++ token rd ++ pad7 ++ rest
        = APP_VERSION_SEARCH_TERM ++ (pad9 ++ (token app ++ (pad3a ++ (token ver
          ++ (pad3b ++ (token rd ++ (pad7 ++ rest)))))))
      from by simp only [List.append_assoc]]
    exact get_bytes_marker_zero _ _
  have t1 : get_token (APP_VERSION_SEARCH_TERM ++ pad9 ++ token app ++ pad3a ++ token ver
      ++ pad3b ++ token rd ++ pad7 ++ rest) (APP_VERSION_SEARCH_TERM ++ pad9).length
      = .ok (token_text app, app.length + 1) := by
    rw [show APP_VERSION_SEARCH_TERM ++ pad9 ++ token app ++ pad3a ++ token ver
        ++ pad3b ++ token rd ++ pad7 ++ rest
        = (APP_VERSION_SEARCH_TERM ++ pad9) ++ token app
          ++ (pad3a ++ token ver ++ pad3b ++ token rd ++ pad7 ++ rest)
      from by simp only [List.append_assoc]]
    exact get_token_at _ _ _
  have t2 : get_token (APP_VERSION_SEARCH_TERM ++ pad9 ++ token app ++ pad3a ++ token ver
      ++ pad3b ++ token rd ++ pad7 ++ rest)
      (APP_VERSION_SEARCH_TERM ++ pad9 ++ token app ++ pad3a).length
      = .ok (token_text ver, ver.length + 1) := by
    rw [show APP_VERSION_SEARCH_TERM ++ pad9 ++ token app ++ pad3a ++ token ver
        ++ pad3b ++ token rd ++ pad7 ++ rest
        = (APP_VERSION_SEARCH_TERM ++ pad9 ++ token app ++ pad3a) ++ token ver
          ++ (pad3b ++ token rd ++ pad7 ++ rest)
      from by simp only [List.append_assoc]]
    exact get_token_at _ _ _
  have t3 : get_token (APP_VERSION_SEARCH_TERM ++ pad9 ++ token app ++ pad3a ++ token ver
      ++ pad3b ++ token rd ++ pad7 ++ rest)
      (APP_VERSION_SEARCH_TERM ++ pad9 ++ token app ++ pad3a ++ token ver ++ pad3b).length
      = .ok (token_text rd, rd.length + 1) := by
    rw [show APP_VERSION_SEARCH_TERM ++ pad9 ++ token app ++ pad3a ++ token ver
        ++ pad3b ++ token rd ++ pad7 ++ rest
        = (APP_VERSION_SEARCH_TERM ++ pad9 ++ token app ++ pad3a ++ token ver ++ pad3b)
          ++ token rd ++ (pad7 ++ rest)
      from by simp only [List.append_assoc]]
    exact get_token_at _ _ _
  simp only [search_metadata]
  rw [if_pos hmarker]
  rw [show 0 + APP_VERSION_SEARCH_TERM.length + 9 = (APP_VERSION_SEARCH_TERM ++ pad9).length
    from by simp [APP_VERSION_SEARCH_TERM, h9]]
  rw [t1]
  simp only []
  rw [show (APP_VERSION_SEARCH_TERM ++ pad9).length + (app.length + 1) + 3
      = (APP_VERSION_SEARCH_TERM ++ pad9 ++ token app ++ pad3a).length
    from by simp [APP_VERSION_SEARCH_TERM, token, h9, h3a] <;> omega]
  rw [t2]
  simp only []
  rw [show (APP_VERSION_SEARCH_TERM ++ pad9 ++ token app ++ pad3a).length + (ver.length + 1) + 3
      = (APP_VERSION_SEARCH_TERM ++ pad9 ++ token app ++ pad3a ++ token ver ++ pad3b).length
    from by simp [APP_VERSION_SEARCH_TERM, token, h9, h3a, h3b] <;> omega]
  rw [t3]
  simp only []
  rw [show (APP_VERSION_SEARCH_TERM ++ pad9 ++ token app ++ pad3a ++ token ver
        ++ pad3b).length + (rd.length + 1) + 7
      = 21 + (app.length + 1) + 3 + (ver.length + 1) + 3 + (rd.length + 1) + 7
    from by simp [APP_VERSION_SEARCH_TERM, token, h9, h3a, h3b] <;> omega]

/-- A marker placed directly after a prefix is read back exactly by get_bytes
at the prefix length. -/
theorem get_bytes_marker (pre marker suf : List Nat) :
    get_bytes (pre ++ marker ++ suf) pre.length marker.length = some marker := by
  rw [get_bytes_eq_some_iff]
  constructor
  · simp
  · rw [List.append_assoc, List.drop_left, List.take_left]

/-- Partial evaluation of the plugin matcher on a buffer holding the marker,
the 22 padding bytes, the GUID field, the key field with text Plugin Name and
the name field with their padding skips, followed by anything: the outcome
only depends on the token read after the name field. -/
theorem search_plugin_eval (pre pad22 guid pad3 key pad5 name pad3b rest : List Nat)
    (h22 : pad22.length = 22) (h3 : pad3.length = 3) (h5 : pad5.length = 5)
    (h3b : pad3b.length = 3) (hkey : token_text key = "Plugin Name") :
    search_plugin (pre ++ PLUGIN_UID_SEARCH_TERM ++ pad22 ++ token guid ++ pad3 ++ token key
        ++ pad5 ++ token name ++ pad3b ++ rest) pre.length =
      match get_token (pre ++ PLUGIN_UID_SEARCH_TERM ++ pad22 ++ token guid ++ pad3 ++ token key
          ++ pad5 ++ token name ++ pad3b ++ rest)
          (pre.length + 33 + (guid.length + 1) + 3 + (key.length + 1) + 5
            + (name.length + 1) + 3) with
      | .error _ => .error .NoTokenAfterPluginName
      | .ok (key2, len) =>
        if key2 = "Original Plugin Name" then
          match get_token (pre ++ PLUGIN_UID_SEARCH_TERM ++ pad22 ++ token guid ++ pad3
              ++ token key ++ pad5 ++ token name ++ pad3b ++ rest)
              (pre.length + 33 + (guid.length + 1) + 3 + (key.length + 1) + 5
                + (name.length + 1) + 3 + len + 5) with
          | .error _ => .error .NoOriginalPluginName
          | .ok (original_name, len2) =>
            .ok (some ({ guid := token_text guid, name := original_name },
              pre.length + 33 + (guid.length + 1) + 3 + (key.length + 1) + 5
                + (name.length + 1) + 3 + len + 5 + len2))
        else
          .ok (some ({ guid := token_text guid, name := token_text name },
            pre.length + 33 + (guid.length + 1) + 3 + (key.length + 1) + 5
              + (name.length + 1) + 3)) := by
  have hmarker : get_bytes (pre ++ PLUGIN_UID_SEARCH_TERM ++ pad22 ++ token guid ++ pad3
      ++ token key ++ pad5 ++ token name ++ pad3b ++ rest) pre.length
      PLUGIN_UID_SEARCH_TERM.length = some PLUGIN_UID_SEARCH_TERM := by
    rw [show pre ++ PLUGIN_UID_SEARCH_TERM ++ pad22 ++ token guid ++ pad3 ++ token key
        ++ pad5 ++ token name ++ pad3b ++ rest
        = pre ++ PLUGIN_UID_SEARCH_TERM ++ (pad22 ++ (token guid ++ (pad3 ++ (token key
          ++ (pad5 ++ (token name ++ (pad3b ++ rest)))))))
      from by simp only [List.append_assoc]]
    exact get_bytes_marker _ _ _
  have t1 : get_token (pre ++ PLUGIN_UID_SEARCH_TERM ++ pad22 ++ token guid ++ pad3
      ++ token key ++ pad5 ++ token name ++ pad3b ++ rest)
      (pre ++ PLUGIN_UID_SEARCH_TERM ++ pad22).length
      = .ok (token_text guid, guid.length + 1) := by
    rw [show pre ++ PLUGIN_UID_SEARCH_TERM ++ pad22 ++ token guid ++ pad3 ++ token key
        ++ pad5 ++ token name ++ pad3b ++ rest
        = (pre ++ PLUGIN_UID_SEARCH_TERM ++ pad22) ++ token guid
          ++ (pad3 ++ token key ++ pad5 ++ token name ++ pad3b ++ rest)
      from by simp only [List.append_assoc]]
    exact get_token_at _ _ _
  have t2 : get_token (pre ++ PLUGIN_UID_SEARCH_TERM ++ pad22 ++ token guid ++ pad3
      ++ token key ++ pad5 ++ token name ++ pad3b ++ rest)
      (pre ++ PLUGIN_UID_SEARCH_TERM ++ pad22 ++ token guid ++ pad3).length
      = .ok (token_text key, key.length + 1) := by
    rw [show pre ++ PLUGIN_UID_SEARCH_TERM ++ pad22 ++ token guid ++ pad3 ++ token key
        ++ pad5 ++ token name ++ pad3b ++ rest
        = (pre ++ PLUGIN_UID_SEARCH_TERM ++ pad22 ++ token guid ++ pad3) ++ token key
          ++ (pad5 ++ token name ++ pad3b ++ rest)
      from by simp only [List.append_assoc]]
    exact get_token_at _ _ _
  have t3 : get_token (pre ++ PLUGIN_UID_SEARCH_TERM ++ pad22 ++ token guid ++ pad3
      ++ token key ++ pad5 ++ token name ++ pad3b ++ rest)
      (pre ++ PLUGIN_UID_SEARCH_TERM ++ pad22 ++ token guid ++ pad3 ++ token key
        ++ pad5).length
      = .ok (token_text name, name.length + 1) := by
    rw [show pre ++ PLUGIN_UID_SEARCH_TERM ++ pad22 ++ token guid ++ pad3 ++ token key
        ++ pad5 ++ token name ++ pad3b ++ rest
        = (pre ++ PLUGIN_UID_SEARCH_TERM ++ pad22 ++ token guid ++ pad3 ++ token key
          ++ pad5) ++ token name ++ (pad3b ++ rest)
      from by simp only [List.append_assoc]]
    exact get_token_at _ _ _
  simp only [search_plugin]
  rw [if_pos hmarker]
  rw [show pre.length + PLUGIN_UID_SEARCH_TERM.length + 22
      = (pre ++ PLUGIN_UID_SEARCH_TERM ++ pad22).length
    from by simp [PLUGIN_UID_SEARCH_TERM, h22] <;> omega]
  rw [t1]
  simp only []
  rw [show (pre ++ PLUGIN_UID_SEARCH_TERM ++ pad22).length + (guid.length + 1) + 3
      = (pre ++ PLUGIN_UID_SEARCH_TERM ++ pad22 ++ token guid ++ pad3).length
    from by simp [PLUGIN_UID_SEARCH_TERM, token, h22, h3] <;> omega]
  rw [t2]
  simp only []
  rw [if_neg (by simp [hkey])]
  rw [show (pre ++ PLUGIN_UID_SEARCH_TERM ++ pad22 ++ token guid ++ pad3).length
        + (key.length + 1) + 5
      = (pre ++ PLUGIN_UID_SEARCH_TERM ++ pad22 ++ token guid ++ pad3 ++ token key
        ++ pad5).length
    from by simp [PLUGIN_UID_SEARCH_TERM, token, h22, h3, h5] <;> omega]
  rw [t3]
  simp only []
  rw [show (pre ++ PLUGIN_UID_SEARCH_TERM ++ pad22 ++ token guid ++ pad3 ++ token key
        ++ pad5).length + (name.length + 1) + 3
      = pre.length + 33 + (guid.length + 1) + 3 + (key.length + 1) + 5
        + (name.length + 1) + 3
    from by simp [PLUGIN_UID_SEARCH_TERM, token, h22, h3, h5] <;> omega]

/-- A complete metadata block decodes to exactly its four field texts, with the
cursor moved to the end of the block, whatever follows. -/
theorem search_metadata_block (pad9 app pad3a ver pad3b rd pad7 arch suf : List Nat)
    (h9 : pad9.length = 9) (h3a : pad3a.length = 3) (h3b : pad3b.length = 3)
    (h7 : pad7.length = 7) :
    search_metadata (metadata_block pad9 app pad3a ver pad3b rd pad7 arch ++ suf) 0
      = .ok (some (metadata_of app ver rd arch,
          (metadata_block pad9 app pad3a ver pad3b rd pad7 arch).length)) := by
  unfold metadata_block metadata_of
  rw [show APP_VERSION_SEARCH_TERM ++ pad9 ++ token app ++ pad3a ++ token ver ++ pad3b
      ++ token rd ++ pad7 ++ token arch ++ suf
      = APP_VERSION_SEARCH_TERM ++ pad9 ++ token app ++ pad3a ++ token ver ++ pad3b
        ++ token rd ++ pad7 ++ (token arch ++ suf)
    from by simp only [List.append_assoc]]
  rw [search_metadata_eval pad9 app pad3a ver pad3b rd pad7 (token arch ++ suf)
    h9 h3a h3b h7]
  have t4 : get_token (APP_VERSION_SEARCH_TERM ++ pad9 ++ token app ++ pad3a ++ token ver
      ++ pad3b ++ token rd ++ pad7 ++ (token arch ++ suf))
      (21 + (app.length + 1) + 3 + (ver.length + 1) + 3 + (rd.length + 1) + 7)
      = .ok (token_text arch, arch.length + 1) := by
    rw [show APP_VERSION_SEARCH_TERM ++ pad9 ++ token app ++ pad3a ++ token ver ++ pad3b
        ++ token rd ++ pad7 ++ (token arch ++ suf)
        = (APP_VERSION_SEARCH_TERM ++ pad9 ++ token app ++ pad3a ++ token ver ++ pad3b
          ++ token rd ++ pad7) ++ token arch ++ suf
      from by simp only [List.append_assoc]]
    rw [show 21 + (app.length + 1) + 3 + (ver.length + 1) + 3 + (rd.length + 1) + 7
        = (APP_VERSION_SEARCH_TERM ++ pad9 ++ token app ++ pad3a ++ token ver ++ pad3b
          ++ token rd ++ pad7).length
      from by simp [APP_VERSION_SEARCH_TERM, token, h9, h3a, h3b, h7] <;> omega]
    exact get_token_at _ _ _
  rw [t4]
  simp only []
  rw [show 21 + (app.length + 1) + 3 + (ver.length + 1) + 3 + (rd.length + 1) + 7
      + (arch.length + 1)
      = (APP_VERSION_SEARCH_TERM ++ pad9 ++ token app ++ pad3a ++ token ver ++ pad3b
        ++ token rd ++ pad7 ++ token arch).length
    from by simp [APP_VERSION_SEARCH_TERM, token, h9, h3a, h3b, h7] <;> omega]

/-- When the architecture length byte points past the end of the buffer, the
metadata matcher still succeeds, substituting the text Unspecified and leaving
the cursor at the architecture length byte. -/
theorem search_metadata_arch_eof (pad9 app pad3a ver pad3b rd pad7 : List Nat) (k : Nat)
    (h9 : pad9.length = 9) (h3a : pad3a.length = 3) (h3b : pad3b.length = 3)
    (h7 : pad7.length = 7) (hk : 0 < k) :
    search_metadata (APP_VERSION_SEARCH_TERM ++ pad9 ++ token app ++ pad3a ++ token ver
        ++ pad3b ++ token rd ++ pad7 ++ [k]) 0
      = .ok (some ({ application := token_text app,
                     version := strip_version (token_text ver),
                     release_date := token_text rd, architecture := "Unspecified" },
          21 + (app.length + 1) + 3 + (ver.length + 1) + 3 + (rd.length + 1) + 7)) := by
  rw [search_metadata_eval pad9 app pad3a ver pad3b rd pad7 [k] h9 h3a h3b h7]
  have hlen : (APP_VERSION_SEARCH_TERM ++ pad9 ++ token app ++ pad3a ++ token ver ++ pad3b
      ++ token rd ++ pad7 ++ [k]).length
      = 21 + (app.length + 1) + 3 + (ver.length + 1) + 3 + (rd.length + 1) + 7 + 1 := by
    simp [APP_VERSION_SEARCH_TERM, token, h9, h3a, h3b, h7] <;> omega
  have hg : (APP_VERSION_SEARCH_TERM ++ pad9 ++ token app ++ pad3a ++ token ver ++ pad3b
      ++ token rd ++ pad7 ++ [k]).getD
      (21 + (app.length + 1) + 3 + (ver.length + 1) + 3 + (rd.length + 1) + 7) 0 = k := by
    rw [List.getD_append_right]
    · rw [show 21 + (app.length + 1) + 3 + (ver.length + 1) + 3 + (rd.length + 1) + 7
          - (APP_VERSION_SEARCH_TERM ++ pad9 ++ token app ++ pad3a ++ token ver ++ pad3b
            ++ token rd ++ pad7).length = 0
        from by simp [APP_VERSION_SEARCH_TERM, token, h9, h3a, h3b, h7] <;> omega]
      rfl
    · simp [APP_VERSION_SEARCH_TERM, token, h9, h3a, h3b, h7] <;> omega
  rw [get_token_payload_eof _ _ (by omega) (by rw [hg]; omega)]

/-- A buffer that ends right after the metadata marker and its padding fails
with NoApplication. -/
theorem search_metadata_trunc_app (pad9 : List Nat) (h9 : pad9.length = 9) :
    search_metadata (APP_VERSION_SEARCH_TERM ++ pad9) 0 = .error .NoApplication := by
  simp only [search_metadata]
  rw [if_pos (get_bytes_marker_zero _ _)]
  rw [get_token_eof _ _ (by simp [APP_VERSION_SEARCH_TERM, h9])]

/-- A buffer that ends right after the application field and its padding fails
with NoVersion. -/
theorem search_metadata_trunc_ver (pad9 app pad3a : List Nat)
    (h9 : pad9.length = 9) (h3a : pad3a.length = 3) :
    search_metadata (APP_VERSION_SEARCH_TERM ++ pad9 ++ token app ++ pad3a) 0
      = .error .NoVersion := by
  have hmarker : get_bytes (APP_VERSION_SEARCH_TERM ++ pad9 ++ token app ++ pad3a) 0
      APP_VERSION_SEARCH_TERM.length = some APP_VERSION_SEARCH_TERM := by
    rw [show APP_VERSION_SEARCH_TERM ++ pad9 ++ token app ++ pad3a
        = APP_VERSION_SEARCH_TERM ++ (pad9 ++ (token app ++ pad3a))
      from by simp only [List.append_assoc]]
    exact get_bytes_marker_zero _ _
  have t1 : get_token (APP_VERSION_SEARCH_TERM ++ pad9 ++ token app ++ pad3a)
      (APP_VERSION_SEARCH_TERM ++ pad9).length = .ok (token_text app, app.length + 1) := by
    rw [show APP_VERSION_SEARCH_TERM ++ pad9 ++ token app ++ pad3a
        = (APP_VERSION_SEARCH_TERM ++ pad9) ++ token app ++ pad3a
      from by simp only [List.append_assoc]]
    exact get_token_at _ _ _
  simp only [search_metadata]
  rw [if_pos hmarker]
  rw [show 0 + APP_VERSION_SEARCH_TERM.length + 9 = (APP_VERSION_SEARCH_TERM ++ pad9).length
    from by simp [APP_VERSION_SEARCH_TERM, h9]]
  rw [t1]
  simp only []
  rw [get_token_eof _ _ (by simp [APP_VERSION_SEARCH_TERM, token, h9, h3a] <;> omega)]

/-- A buffer that ends right after the version field and its padding fails
with NoReleaseDate. -/
theorem search_metadata_trunc_rd (pad9 app pad3a ver pad3b : List Nat)
    (h9 : pad9.length = 9) (h3a : pad3a.length = 3) (h3b : pad3b.length = 3) :
    search_metadata (APP_VERSION_SEARCH_TERM ++ pad9 ++ token app ++ pad3a ++ token ver
      ++ pad3b) 0 = .error .NoReleaseDate := by
  have hmarker : get_bytes (APP_VERSION_SEARCH_TERM ++ pad9 ++ token app ++ pad3a
      ++ token ver ++ pad3b) 0
      APP_VERSION_SEARCH_TERM.length = some APP_VERSION_SEARCH_TERM := by
    rw [show APP_VERSION_SEARCH_TERM ++ pad9 ++ token app ++ pad3a ++ token ver ++ pad3b
        = APP_VERSION_SEARCH_TERM ++ (pad9 ++ (token app ++ (pad3a ++ (token ver ++ pad3b))))
      from by simp only [List.append_assoc]]
    exact get_bytes_marker_zero _ _
  have t1 : get_token (APP_VERSION_SEARCH_TERM ++ pad9 ++ token app ++ pad3a ++ token ver
      ++ pad3b) (APP_VERSION_SEARCH_TERM ++ pad9).length
      = .ok (token_text app, app.length + 1) := by
    rw [show APP_VERSION_SEARCH_TERM ++ pad9 ++ token app ++ pad3a ++ token ver ++ pad3b
        = (APP_VERSION_SEARCH_TERM ++ pad9) ++ token app ++ (pad3a ++ token ver ++ pad3b)
      from by simp only [List.append_assoc]]
    exact get_token_at _ _ _
  have t2 : get_token (APP_VERSION_SEARCH_TERM ++ pad9 ++ token app ++ pad3a ++ token ver
      ++ pad3b) (APP_VERSION_SEARCH_TERM ++ pad9 ++ token app ++ pad3a).length
      = .ok (token_text ver, ver.length + 1) := by
    rw [show APP_VERSION_SEARCH_TERM ++ pad9 ++ token app ++ pad3a ++ token ver ++ pad3b
        = (APP_VERSION_SEARCH_TERM ++ pad9 ++ token app ++ pad3a) ++ token ver ++ pad3b
      from by simp only [List.append_assoc]]
    exact get_token_at _ _ _
  simp only [search_metadata]
  rw [if_pos hmarker]
  rw [show 0 + APP_VERSION_SEARCH_TERM.length + 9 = (APP_VERSION_SEARCH_TERM ++ pad9).length
    from by simp [APP_VERSION_SEARCH_TERM, h9]]
  rw [t1]
  simp only []
  rw [show (APP_VERSION_SEARCH_TERM ++ pad9).length + (app.length + 1) + 3
      = (APP_VERSION_SEARCH_TERM ++ pad9 ++ token app ++ pad3a).length
    from by simp [APP_VERSION_SEARCH_TERM, token, h9, h3a] <;> omega]
  rw [t2]
  simp only []
  rw [get_token_eof _ _ (by simp [APP_VERSION_SEARCH_TERM, token, h9, h3a, h3b] <;> omega)]

/-- A well-formed plugin record placed after any prefix decodes to its plugin,
with the cursor moved to the end of the record, whatever follows. -/
theorem search_plugin_record_at (pre : List Nat) (r : PluginRecordParts) (suf : List Nat)
    (hwf : plugin_record_wf r) :
    search_plugin (pre ++ plugin_record_block r ++ suf) pre.length
      = .ok (some (plugin_record_plugin r,
          pre.length + (plugin_record_block r).length)) := by
  obtain ⟨h22, h3, h5, h3b, h5b, _, _, _, _, _, hkey, hokey⟩ := hwf
  unfold plugin_record_block plugin_record_plugin
  rw [show pre ++ (PLUGIN_UID_SEARCH_TERM ++ r.pad22 ++ token r.guid ++ r.pad3 ++ token r.key
      ++ r.pad5 ++ token r.first_name ++ r.pad3b ++ token r.okey ++ r.pad5b
      ++ token r.orig_name) ++ suf
      = pre ++ PLUGIN_UID_SEARCH_TERM ++ r.pad22 ++ token r.guid ++ r.pad3 ++ token r.key
        ++ r.pad5 ++ token r.first_name ++ r.pad3b
        ++ (token r.okey ++ r.pad5b ++ token r.orig_name ++ suf)
    from by simp only [List.append_assoc]]
  rw [search_plugin_eval pre r.pad22 r.guid r.pad3 r.key r.pad5 r.first_name r.pad3b
    (token r.okey ++ r.pad5b ++ token r.orig_name ++ suf) h22 h3 h5 h3b hkey]
  have t4 : get_token (pre ++ PLUGIN_UID_SEARCH_TERM ++ r.pad22 ++ token r.guid ++ r.pad3
      ++ token r.key ++ r.pad5 ++ token r.first_name ++ r.pad3b
      ++ (token r.okey ++ r.pad5b ++ token r.orig_name ++ suf))
      (pre.length + 33 + (r.guid.length + 1) + 3 + (r.key.length + 1) + 5
        + (r.first_name.length + 1) + 3)
      = .ok (token_text r.okey, r.okey.length + 1) := by
    rw [show pre ++ PLUGIN_UID_SEARCH_TERM ++ r.pad22 ++ token r.guid ++ r.pad3 ++ token r.key
        ++ r.pad5 ++ token r.first_name ++ r.pad3b
        ++ (token r.okey ++ r.pad5b ++ token r.orig_name ++ suf)
        = (pre ++ PLUGIN_UID_SEARCH_TERM ++ r.pad22 ++ token r.guid ++ r.pad3 ++ token r.key
          ++ r.pad5 ++ token r.first_name ++ r.pad3b) ++ token r.okey
          ++ (r.pad5b ++ token r.orig_name ++ suf)
      from by simp only [List.append_assoc]]
    rw [show pre.length + 33 + (r.guid.length + 1) + 3 + (r.key.length + 1) + 5
        + (r.first_name.length + 1) + 3
        = (pre ++ PLUGIN_UID_SEARCH_TERM ++ r.pad22 ++ token r.guid ++ r.pad3 ++ token r.key
          ++ r.pad5 ++ token r.first_name ++ r.pad3b).length
      from by simp [PLUGIN_UID_SEARCH_TERM, token, h22, h3, h5, h3b] <;> omega]
    exact get_token_at _ _ _
  rw [t4]
  simp only []
  rw [if_pos hokey]
  have t5 : get_token (pre ++ PLUGIN_UID_SEARCH_TERM ++ r.pad22 ++ token r.guid ++ r.pad3
      ++ token r.key ++ r.pad5 ++ token r.first_name ++ r.pad3b
      ++ (token r.okey ++ r.pad5b ++ token r.orig_name ++ suf))
      (pre.length + 33 + (r.guid.length + 1) + 3 + (r.key.length + 1) + 5
        + (r.first_name.length + 1) + 3 + (r.okey.length + 1) + 5)
      = .ok (token_text r.orig_name, r.orig_name.length + 1) := by
    rw [show pre ++ PLUGIN_UID_SEARCH_TERM ++ r.pad22 ++ token r.guid ++ r.pad3 ++ token r.key
        ++ r.pad5 ++ token r.first_name ++ r.pad3b
        ++ (token r.okey ++ r.pad5b ++ token r.orig_name ++ suf)
        = (pre ++ PLUGIN_UID_SEARCH_TERM ++ r.pad22 ++ token r.guid ++ r.pad3 ++ token r.key
          ++ r.pad5 ++ token r.first_name ++ r.pad3b ++ token r.okey ++ r.pad5b)
          ++ token r.orig_name ++ suf
      from by simp only [List.append_assoc]]
    rw [show pre.length + 33 + (r.guid.length + 1) + 3 + (r.key.length + 1) + 5
        + (r.first_name.length + 1) + 3 + (r.okey.length + 1) + 5
        = (pre ++ PLUGIN_UID_SEARCH_TERM ++ r.pad22 ++ token r.guid ++ r.pad3 ++ token r.key
          ++ r.pad5 ++ token r.first_name ++ r.pad3b ++ token r.okey ++ r.pad5b).length
      from by simp [PLUGIN_UID_SEARCH_TERM, token, h22, h3, h5, h3b, h5b] <;> omega]
    exact get_token_at _ _ _
  rw [t5]
  simp only []
  rw [show pre.length + 33 + (r.guid.length + 1) + 3 + (r.key.length + 1) + 5
      + (r.first_name.length + 1) + 3 + (r.okey.length + 1) + 5 + (r.orig_name.length + 1)
      = pre.length + (PLUGIN_UID_SEARCH_TERM ++ r.pad22 ++ token r.guid ++ r.pad3
        ++ token r.key ++ r.pad5 ++ token r.first_name ++ r.pad3b ++ token r.okey ++ r.pad5b
        ++ token r.orig_name).length
    from by simp [PLUGIN_UID_SEARCH_TERM, token, h22, h3, h5, h3b, h5b] <;> omega]

/-- When the key decoded after the name field is not Original Plugin Name, the
matcher succeeds with the first decoded name and the returned cursor is the
start of that key field, which is left unconsumed. -/
theorem search_plugin_unrecognized (pre pad22 guid pad3 key pad5 name pad3b key2 suf : List Nat)
    (h22 : pad22.length = 22) (h3 : pad3.length = 3) (h5 : pad5.length = 5)
    (h3b : pad3b.length = 3) (hkey : token_text key = "Plugin Name")
    (hkey2 : token_text key2 ≠ "Original Plugin Name") :
    search_plugin (pre ++ PLUGIN_UID_SEARCH_TERM ++ pad22 ++ token guid ++ pad3 ++ token key
        ++ pad5 ++ token name ++ pad3b ++ (token key2 ++ suf)) pre.length
      = .ok (some ({ guid := token_text guid, name := token_text name },
          pre.length + 33 + (guid.length + 1) + 3 + (key.length + 1) + 5
            + (name.length + 1) + 3)) := by
  rw [search_plugin_eval pre pad22 guid pad3 key pad5 name pad3b (token key2 ++ suf)
    h22 h3 h5 h3b hkey]
  have t4 : get_token (pre ++ PLUGIN_UID_SEARCH_TERM ++ pad22 ++ token guid ++ pad3
      ++ token key ++ pad5 ++ token name ++ pad3b ++ (token key2 ++ suf))
      (pre.length + 33 + (guid.length + 1) + 3 + (key.length + 1) + 5
        + (name.length + 1) + 3)
      = .ok (token_text key2, key2.length + 1) := by
    rw [show pre ++ PLUGIN_UID_SEARCH_TERM ++ pad22 ++ token guid ++ pad3 ++ token key
        ++ pad5 ++ token name ++ pad3b ++ (token key2 ++ suf)
        = (pre ++ PLUGIN_UID_SEARCH_TERM ++ pad22 ++ token guid ++ pad3 ++ token key
          ++ pad5 ++ token name ++ pad3b) ++ token key2 ++ suf
      from by simp only [List.append_assoc]]
    rw [show pre.length + 33 + (guid.length + 1) + 3 + (key.length + 1) + 5
        + (name.length + 1) + 3
        = (pre ++ PLUGIN_UID_SEARCH_TERM ++ pad22 ++ token guid ++ pad3 ++ token key
          ++ pad5 ++ token name ++ pad3b).length
      from by simp [PLUGIN_UID_SEARCH_TERM, token, h22, h3, h5, h3b] <;> omega]
    exact get_token_at _ _ _
  rw [t4]
  simp only []
  rw [if_neg hkey2]

/-- When the buffer ends right after the Original Plugin Name key and its
padding, the matcher fails with NoOriginalPluginName. -/
theorem search_plugin_trunc_orig (pre pad22 guid pad3 key pad5 name pad3b okey pad5b : List Nat)
    (h22 : pad22.length = 22) (h3 : pad3.length = 3) (h5 : pad5.length = 5)
    (h3b : pad3b.length = 3) (h5b : pad5b.length = 5)
    (hkey : token_text key = "Plugin Name")
    (hokey : token_text okey = "Original Plugin Name") :
    search_plugin (pre ++ PLUGIN_UID_SEARCH_TERM ++ pad22 ++ token guid ++ pad3 ++ token key
        ++ pad5 ++ token name ++ pad3b ++ (token okey ++ pad5b)) pre.length
      = .error .NoOriginalPluginName := by
  rw [search_plugin_eval pre pad22 guid pad3 key pad5 name pad3b (token okey ++ pad5b)
    h22 h3 h5 h3b hkey]
  have t4 : get_token (pre ++ PLUGIN_UID_SEARCH_TERM ++ pad22 ++ token guid ++ pad3
      ++ token key ++ pad5 ++ token name ++ pad3b ++ (token okey ++ pad5b))
      (pre.length + 33 + (guid.length + 1) + 3 + (key.length + 1) + 5
        + (name.length + 1) + 3)
      = .ok (token_text okey, okey.length + 1) := by
    rw [show pre ++ PLUGIN_UID_SEARCH_TERM ++ pad22 ++ token guid ++ pad3 ++ token key
        ++ pad5 ++ token name ++ pad3b ++ (token okey ++ pad5b)
        = (pre ++ PLUGIN_UID_SEARCH_TERM ++ pad22 ++ token guid ++ pad3 ++ token key
          ++ pad5 ++ token name ++ pad3b) ++ token okey ++ pad5b
      from by simp only [List.append_assoc]]
    rw [show pre.length + 33 + (guid.length + 1) + 3 + (key.length + 1) + 5
        + (name.length + 1) + 3
        = (pre ++ PLUGIN_UID_SEARCH_TERM ++ pad22 ++ token guid ++ pad3 ++ token key
          ++ pad5 ++ token name ++ pad3b).length
      from by simp [PLUGIN_UID_SEARCH_TERM, token, h22, h3, h5, h3b] <;> omega]
    exact get_token_at _ _ _
  rw [t4]
  simp only []
  rw [if_pos hokey]
  rw [get_token_eof _ _
    (by simp [PLUGIN_UID_SEARCH_TERM, token, h22, h3, h5, h3b, h5b] <;> omega)]

/-- A buffer that ends right after the plugin marker and its padding fails
with NoPluginGUID. -/
theorem search_plugin_trunc_guid (pad22 : List Nat) (h22 : pad22.length = 22) :
    search_plugin (PLUGIN_UID_SEARCH_TERM ++ pad22) 0 = .error .NoPluginGUID := by
  simp only [search_plugin]
  rw [if_pos (get_bytes_marker_zero _ _)]
  rw [get_token_eof _ _ (by simp [PLUGIN_UID_SEARCH_TERM, h22] <;> omega)]

/-- When the key decoded after the GUID is not Plugin Name, the matcher fails
hard with NoPluginName rather than reporting a non-match. -/
theorem search_plugin_badkey (pad22 guid pad3 key suf : List Nat)
    (h22 : pad22.length = 22) (h3 : pad3.length = 3)
    (hkey : token_text key ≠ "Plugin Name") :
    search_plugin (PLUGIN_UID_SEARCH_TERM ++ pad22 ++ token guid ++ pad3 ++ token key ++ suf) 0
      = .error .NoPluginName := by
  have hmarker : get_bytes (PLUGIN_UID_SEARCH_TERM ++ pad22 ++ token guid ++ pad3 ++ token key
      ++ suf) 0 PLUGIN_UID_SEARCH_TERM.length = some PLUGIN_UID_SEARCH_TERM := by
    rw [show PLUGIN_UID_SEARCH_TERM ++ pad22 ++ token guid ++ pad3 ++ token key ++ suf
        = PLUGIN_UID_SEARCH_TERM ++ (pad22 ++ (token guid ++ (pad3 ++ (token key ++ suf))))
      from by simp only [List.append_assoc]]
    exact get_bytes_marker_zero _ _
  have t1 : get_token (PLUGIN_UID_SEARCH_TERM ++ pad22 ++ token guid ++ pad3 ++ token key
      ++ suf) (PLUGIN_UID_SEARCH_TERM ++ pad22).length
      = .ok (token_text guid, guid.length + 1) := by
    rw [show PLUGIN_UID_SEARCH_TERM ++ pad22 ++ token guid ++ pad3 ++ token key ++ suf
        = (PLUGIN_UID_SEARCH_TERM ++ pad22) ++ token guid ++ (pad3 ++ token key ++ suf)
      from by simp only [List.append_assoc]]
    exact get_token_at _ _ _
  have t2 : get_token (PLUGIN_UID_SEARCH_TERM ++ pad22 ++ token guid ++ pad3 ++ token key
      ++ suf) (PLUGIN_UID_SEARCH_TERM ++ pad22 ++ token guid ++ pad3).length
      = .ok (token_text key, key.length + 1) := by
    rw [show PLUGIN_UID_SEARCH_TERM ++ pad22 ++ token guid ++ pad3 ++ token key ++ suf
        = (PLUGIN_UID_SEARCH_TERM ++ pad22 ++ token guid ++ pad3) ++ token key ++ suf
      from by simp only [List.append_assoc]]
    exact get_token_at _ _ _
  simp only [search_plugin]
  rw [if_pos hmarker]
  rw [show 0 + PLUGIN_UID_SEARCH_TERM.length + 22 = (PLUGIN_UID_SEARCH_TERM ++ pad22).length
    from by simp [PLUGIN_UID_SEARCH_TERM, h22] <;> omega]
  rw [t1]
  simp only []
  rw [show (PLUGIN_UID_SEARCH_TERM ++ pad22).length + (guid.length + 1) + 3
      = (PLUGIN_UID_SEARCH_TERM ++ pad22 ++ token guid ++ pad3).length
    from by simp [PLUGIN_UID_SEARCH_TERM, token, h22, h3] <;> omega]
  rw [t2]
  simp only []
  rw [if_pos hkey]

/-- Too few bytes remain for the plugin marker, so the matcher reports a
non-match. -/
theorem search_plugin_none_short (bytes : List Nat) (j : Nat)
    (h : bytes.length < j + 11) :
    search_plugin bytes j = .ok none := by
  simp only [search_plugin]
  rw [if_neg (by
    intro hc
    rw [(get_bytes_eq_none_iff bytes j PLUGIN_UID_SEARCH_TERM.length).mpr
      (by simp [PLUGIN_UID_SEARCH_TERM] <;> omega)] at hc
    exact absurd hc (by simp))]

/-- A buffer headed by the metadata marker starts with the byte P. -/
theorem getD_zero_app_marker (suf : List Nat) :
    (APP_VERSION_SEARCH_TERM ++ suf).getD 0 0 = 80 := by
  simp [APP_VERSION_SEARCH_TERM]

/-- A buffer headed by the plugin marker starts with the byte P. -/
theorem getD_zero_plug_marker (suf : List Nat) :
    (PLUGIN_UID_SEARCH_TERM ++ suf).getD 0 0 = 80 := by
  simp [PLUGIN_UID_SEARCH_TERM]

/-- A metadata matcher failure at offset 0 aborts the whole extraction. -/
theorem gpd_meta_error (bytes : List Nat) (e : Error) (hlen : 0 < bytes.length)
    (hb : bytes.getD 0 0 = 80) (hm : search_metadata bytes 0 = .error e) :
    get_project_details bytes = .error e := by
  unfold get_project_details
  obtain ⟨f, hf⟩ : ∃ f, bytes.length = f + 1 := ⟨bytes.length - 1, by omega⟩
  rw [hf]
  exact loop_meta_error bytes ∅ 0 f e (by omega) hb hm

/-- A plugin matcher failure at offset 0, with no metadata match there, aborts
the whole extraction. -/
theorem gpd_plugin_error (bytes : List Nat) (e : Error) (hlen : 0 < bytes.length)
    (hb : bytes.getD 0 0 = 80) (hm : search_metadata bytes 0 = .ok none)
    (hp : search_plugin bytes 0 = .error e) :
    get_project_details bytes = .error e := by
  unfold get_project_details
  obtain ⟨f, hf⟩ : ∃ f, bytes.length = f + 1 := ⟨bytes.length - 1, by omega⟩
  rw [hf]
  exact loop_plugin_error_of_none bytes ∅ 0 f e (by omega) hb hm hp

/-- Once metadata is recorded, if the plugin matcher recognizes nothing
anywhere from the cursor on, the loop finishes with the current result. -/
theorem loop_tail_of_some (bytes : List Nat) (m : Metadata) :
    ∀ (fuel i : Nat) (pls : Finset Plugin),
      (∀ j, i ≤ j → search_plugin bytes j = .ok none) →
      get_project_details_loop bytes (some m) pls i fuel
        = .ok { metadata := m, plugins := pls } := by
  intro fuel
  induction fuel with
  | zero => intro i pls hp; rfl
  | succ f ih =>
    intro i pls hp
    by_cases hlt : i < bytes.length
    · by_cases hb : bytes.getD i 0 = 80
      · rw [loop_no_match_of_some bytes pls i f m hlt hb (hp i le_rfl)]
        exact ih (i + 1) pls (fun j hj => hp j (by omega))
      · rw [loop_skip bytes (some m) pls i f hlt hb]
        exact ih (i + 1) pls (fun j hj => hp j (by omega))
    · rw [loop_terminal bytes (some m) pls i (f + 1) (by omega)]

/-- Scanning a concatenation of well-formed plugin records placed after the
cursor collects exactly their decoded plugins into the set. -/
theorem loop_chain (m : Metadata) :
    ∀ (L : List PluginRecordParts) (pre : List Nat) (pls : Finset Plugin) (fuel : Nat),
      (∀ r ∈ L, plugin_record_wf r) →
      (pre ++ (L.map plugin_record_block).join).length - pre.length ≤ fuel →
      get_project_details_loop (pre ++ (L.map plugin_record_block).join) (some m) pls
          pre.length fuel
        = .ok { metadata := m,
                plugins := pls ∪ (L.map plugin_record_plugin).toFinset } := by
  intro L
  induction L with
  | nil =>
    intro pre pls fuel hwf hfuel
    simp only [List.map_nil, List.join_nil, List.append_nil, List.toFinset_nil,
      Finset.union_empty]
    exact loop_terminal pre (some m) pls pre.length fuel le_rfl
  | cons r L2 ih =>
    intro pre pls fuel hwf hfuel
    have hwfr : plugin_record_wf r := hwf r (by simp)
    have hblock : 0 < (plugin_record_block r).length := by
      simp [plugin_record_block, PLUGIN_UID_SEARCH_TERM]
    have hlen : (pre ++ ((r :: L2).map plugin_record_block).join).length
        = pre.length + (plugin_record_block r).length
          + ((L2.map plugin_record_block).join).length := by
      simp [List.map_cons, List.join_cons]
      omega
    have hlt : pre.length < (pre ++ ((r :: L2).map plugin_record_block).join).length := by
      omega
    obtain ⟨f, rfl⟩ : ∃ f, fuel = f + 1 := ⟨fuel - 1, by omega⟩
    have hb : (pre ++ ((r :: L2).map plugin_record_block).join).getD pre.length 0 = 80 := by
      rw [List.getD_append_right _ _ _ _ le_rfl]
      simp [List.map_cons, List.join_cons, plugin_record_block, PLUGIN_UID_SEARCH_TERM]
    have hp : search_plugin (pre ++ ((r :: L2).map plugin_record_block).join) pre.length
        = .ok (some (plugin_record_plugin r,
            pre.length + (plugin_record_block r).length)) := by
      rw [show pre ++ ((r :: L2).map plugin_record_block).join
          = pre ++ plugin_record_block r ++ (L2.map plugin_record_block).join
        from by simp [List.map_cons, List.join_cons, List.append_assoc]]
      exact search_plugin_record_at pre r _ hwfr
    rw [loop_plugin_found_of_some _ pls pre.length f m _ _ hlt hb hp]
    rw [show pre.length + (plugin_record_block r).length
        = (pre ++ plugin_record_block r).length from by simp]
    rw [show pre ++ ((r :: L2).map plugin_record_block).join
        = (pre ++ plugin_record_block r) ++ (L2.map plugin_record_block).join
      from by simp [List.map_cons, List.join_cons, List.append_assoc]]
    rw [ih (pre ++ plugin_record_block r) (insert (plugin_record_plugin r) pls) f
      (fun r2 h2 => hwf r2 (by simp [h2]))
      (by rw [hlen] at hfuel
          simp only [List.length_append]
          omega)]
    simp [List.map_cons, List.toFinset_cons, Finset.insert_union, Finset.union_insert]

/-- While no metadata has been found, if the metadata matcher recognizes no
position of the buffer, the loop can never return a Project. -/
theorem loop_none_not_ok (bytes : List Nat)
    (hm : ∀ j, search_metadata bytes j = .ok none) :
    ∀ (fuel i : Nat) (pls : Finset Plugin),
      is_ok (get_project_details_loop bytes none pls i fuel) = false := by
  intro fuel
  induction fuel with
  | zero => intro i pls; rfl
  | succ f ih =>
    intro i pls
    by_cases hlt : i < bytes.length
    · by_cases hb : bytes.getD i 0 = 80
      · cases hsp : search_plugin bytes i with
        | error e =>
          rw [loop_plugin_error_of_none bytes pls i f e hlt hb (hm i) hsp]
          rfl
        | ok w =>
          cases w with
          | some pj =>
            obtain ⟨p, j⟩ := pj
            rw [loop_plugin_found_of_none bytes pls i f p j hlt hb (hm i) hsp]
            exact ih j (insert p pls)
          | none =>
            rw [loop_no_match_of_none bytes pls i f hlt hb (hm i) hsp]
            exact ih (i + 1) pls
      · rw [loop_skip bytes none pls i f hlt hb]
        exact ih (i + 1) pls
    · rw [loop_terminal bytes none pls i (f + 1) (by omega)]
      rfl

/-- While no metadata has been found, if neither matcher recognizes any
position of the buffer, the loop ends in CorruptProject. -/
theorem loop_none_corrupt (bytes : List Nat)
    (hm : ∀ j, search_metadata bytes j = .ok none)
    (hp : ∀ j, search_plugin bytes j = .ok none) :
    ∀ (fuel i : Nat) (pls : Finset Plugin),
      get_project_details_loop bytes none pls i fuel = .error .CorruptProject := by
  intro fuel
  induction fuel with
  | zero => intro i pls; rfl
  | succ f ih =>
    intro i pls
    by_cases hlt : i < bytes.length
    · by_cases hb : bytes.getD i 0 = 80
      · rw [loop_no_match_of_none bytes pls i f hlt hb (hm i) (hp i)]
        exact ih (i + 1) pls
      · rw [loop_skip bytes none pls i f hlt hb]
        exact ih (i + 1) pls
    · rw [loop_terminal bytes none pls i (f + 1) (by omega)]

/-- Without the metadata marker bytes at an offset, the metadata matcher
reports a non-match there. -/
theorem search_metadata_none_of_no_marker (bytes : List Nat) (j : Nat)
    (h : get_bytes bytes j APP_VERSION_SEARCH_TERM.length ≠ some APP_VERSION_SEARCH_TERM) :
    search_metadata bytes j = .ok none := by
  simp only [search_metadata]
  rw [if_neg h]

/-- Without the plugin marker bytes at an offset, the plugin matcher reports a
non-match there. -/
theorem search_plugin_none_of_no_marker (bytes : List Nat) (j : Nat)
    (h : get_bytes bytes j PLUGIN_UID_SEARCH_TERM.length ≠ some PLUGIN_UID_SEARCH_TERM) :
    search_plugin bytes j = .ok none := by
  simp only [search_plugin]
  rw [if_neg h]

/-- A metadata block starts with the byte P. -/
theorem metadata_block_getD (pad9 app pad3a ver pad3b rd pad7 arch : List Nat) :
    (metadata_block pad9 app pad3a ver pad3b rd pad7 arch).getD 0 0 = 80 := by
  simp [metadata_block, APP_VERSION_SEARCH_TERM]

/-- After a metadata matcher success at offset 0, the scan continues with the
recorded metadata from the returned cursor. -/
theorem gpd_meta_found (bytes : List Nat) (m : Metadata) (j : Nat)
    (hlen : 0 < bytes.length) (hb : bytes.getD 0 0 = 80)
    (hm : search_metadata bytes 0 = .ok (some (m, j))) :
    get_project_details bytes
      = get_project_details_loop bytes (some m) ∅ j (bytes.length - 1) := by
  unfold get_project_details
  obtain ⟨f, hf⟩ : ∃ f, bytes.length = f + 1 := ⟨bytes.length - 1, by omega⟩
  rw [hf]
  rw [loop_meta_found bytes ∅ 0 f m j (by omega) hb hm]
  norm_num

/-- The executable marker_free check coincides with the absence of the marker
at every offset. -/
theorem marker_free_iff (marker bytes : List Nat) (hm : marker ≠ []) :
    marker_free marker bytes = true
      ↔ ∀ i, get_bytes bytes i marker.length ≠ some marker := by
  unfold marker_free
  rw [List.all_eq_true]
  constructor
  · intro h i
    by_cases hi : i < bytes.length
    · have := h i (List.mem_range.mpr hi)
      simpa using this
    · intro hc
      rw [(get_bytes_eq_none_iff bytes i marker.length).mpr
        (by have := List.length_pos.mpr hm; omega)] at hc
      exact absurd hc (by simp)
  · intro h i _
    simpa using h i

/-- An in-bounds one byte read returns the byte at the offset. -/
theorem get_bytes_one (bytes : List Nat) (i : Nat) (h : i < bytes.length) :
    get_bytes bytes i 1 = some [bytes.getD i 0] := by
  rw [get_bytes_eq_some_iff]
  refine ⟨by omega, ?_⟩
  rw [List.getD_eq_getElem bytes 0 h]
  exact (List.take_one_drop_eq_of_lt_length h).symm

/-- Success shape of the token decoder: when both the length byte and the
payload are in bounds, it returns the decoded payload text and consumes the
payload length plus one. -/
theorem get_token_ok (bytes : List Nat) (i : Nat) (h : i < bytes.length)
    (h2 : i + 1 + bytes.getD i 0 ≤ bytes.length) :
    get_token bytes i
      = .ok (token_text ((bytes.drop (i + 1)).take (bytes.getD i 0)),
          bytes.getD i 0 + 1) := by
  unfold get_token
  rw [get_bytes_one bytes i h]
  simp only [List.headD_cons]
  rw [(get_bytes_eq_some_iff bytes (i + 1) (bytes.getD i 0) _).mpr ⟨by omega, rfl⟩]

/-- C1 (corrected): when the metadata marker occurs nowhere in the buffer, the
extraction never returns a Project; if moreover the plugin marker occurs
nowhere either (the empty buffer included), it fails with CorruptProject.  The
claim as frozen, that the failure is CorruptProject regardless of plugin
content, is refuted by C1_counterexample. -/
theorem C1_no_marker (bytes : List Nat)
    (hm : ∀ i, get_bytes bytes i APP_VERSION_SEARCH_TERM.length
      ≠ some APP_VERSION_SEARCH_TERM) :
    is_ok (get_project_details bytes) = false
    ∧ ((∀ i, get_bytes bytes i PLUGIN_UID_SEARCH_TERM.length
          ≠ some PLUGIN_UID_SEARCH_TERM) →
        get_project_details bytes = .error .CorruptProject) := by
  constructor
  · unfold get_project_details
    exact loop_none_not_ok bytes
      (fun j => search_metadata_none_of_no_marker bytes j (hm j)) bytes.length 0 ∅
  · intro hp
    unfold get_project_details
    exact loop_none_corrupt bytes
      (fun j => search_metadata_none_of_no_marker bytes j (hm j))
      (fun j => search_plugin_none_of_no_marker bytes j (hp j)) bytes.length 0 ∅

/-- Counterexample to C1 as frozen: this buffer contains no occurrence of the
metadata marker, yet get_project_details fails with NoPluginGUID, not with
CorruptProject. -/
theorem C1_counterexample :
    marker_free APP_VERSION_SEARCH_TERM no_metadata_example = true
    ∧ get_project_details no_metadata_example = .error .NoPluginGUID
    ∧ Error.NoPluginGUID ≠ Error.CorruptProject := by
  decide

/-- Witness for C1 on a concrete marker-free buffer. -/
theorem C1_witness :
    is_ok (get_project_details [1, 2, 3]) = false
    ∧ get_project_details [1, 2, 3] = .error .CorruptProject := by
  have h := C1_no_marker [1, 2, 3] (by
    intro i hc
    rw [(get_bytes_eq_none_iff [1, 2, 3] i APP_VERSION_SEARCH_TERM.length).mpr
      (by simp [APP_VERSION_SEARCH_TERM] <;> omega)] at hc
    exact absurd hc (by simp))
  refine ⟨h.1, h.2 (by
    intro i hc
    rw [(get_bytes_eq_none_iff [1, 2, 3] i PLUGIN_UID_SEARCH_TERM.length).mpr
      (by simp [PLUGIN_UID_SEARCH_TERM] <;> omega)] at hc
    exact absurd hc (by simp))⟩

/-- C2: contract of the token decoder: LengthBeyondEOF exactly when the length
byte is out of bounds, TokenBeyondEOF exactly when the payload would run past
the end, and on success the consumed count is the length byte plus one and the
text is the payload decoded by the nul-scanning lossy policy; no other error
is ever produced, in particular none for text encoding reasons. -/
theorem C2_token_decoder (bytes : List Nat) (i : Nat) :
    (get_token bytes i = .error .LengthBeyondEOF ↔ bytes.length ≤ i)
    ∧ (get_token bytes i = .error .TokenBeyondEOF
        ↔ i < bytes.length ∧ bytes.length < i + 1 + bytes.getD i 0)
    ∧ (∀ s k, get_token bytes i = .ok (s, k) →
        k = bytes.getD i 0 + 1
        ∧ s = token_text ((bytes.drop (i + 1)).take (bytes.getD i 0)))
    ∧ (∀ e, get_token bytes i = .error e →
        e = .LengthBeyondEOF ∨ e = .TokenBeyondEOF) := by
  by_cases h1 : bytes.length ≤ i
  · rw [get_token_eof bytes i h1]
    refine ⟨⟨fun _ => h1, fun _ => rfl⟩,
      ⟨fun hc => absurd hc (by simp), fun hc => absurd hc.1 (by omega)⟩,
      fun s k hc => absurd hc (by simp),
      fun e hc => by injection hc with h; exact Or.inl h.symm⟩
  · push_neg at h1
    by_cases h2 : bytes.length < i + 1 + bytes.getD i 0
    · rw [get_token_payload_eof bytes i h1 h2]
      refine ⟨⟨fun hc => absurd hc (by simp), fun hc => absurd hc (by omega)⟩,
        ⟨fun _ => ⟨h1, h2⟩, fun _ => rfl⟩,
        fun s k hc => absurd hc (by simp),
        fun e hc => by injection hc with h; exact Or.inr h.symm⟩
    · push_neg at h2
      rw [get_token_ok bytes i h1 (by omega)]
      refine ⟨⟨fun hc => absurd hc (by simp), fun hc => absurd hc (by omega)⟩,
        ⟨fun hc => absurd hc (by simp), fun hc => absurd hc.2 (by omega)⟩,
        fun s k hc => ?_,
        fun e hc => absurd hc (by simp)⟩
      injection hc with h
      simp only [Prod.mk.injEq] at h
      exact ⟨h.2.symm, h.1.symm⟩

/-- Witness for C2 at concrete inputs: a decoded one byte payload with a nul
terminator, and the empty buffer bounds check. -/
theorem C2_witness :
    ((3 : Nat) = ([2, 65, 0] : List Nat).getD 0 0 + 1
      ∧ "A" = token_text ((([2, 65, 0] : List Nat).drop (0 + 1)).take
          (([2, 65, 0] : List Nat).getD 0 0)))
    ∧ (get_token [] 0 = .error .LengthBeyondEOF ↔ ([] : List Nat).length ≤ 0) := by
  constructor
  · exact (C2_token_decoder [2, 65, 0] 0).2.2.1 "A" 3 (by decide)
  · exact (C2_token_decoder [] 0).1

/-- C3: scanning a buffer that is exactly a well-formed metadata region
(marker, 9 padding bytes, then application, version, release date and
architecture fields with the +3, +3, +7 padding skips) returns Metadata equal
to the decoded field texts, with the literal prefix Version stripped from the
version field when present, and an empty plugin set. -/
theorem C3_metadata_decoded (pad9 app pad3a ver pad3b rd pad7 arch : List Nat)
    (h9 : pad9.length = 9) (h3a : pad3a.length = 3) (h3b : pad3b.length = 3)
    (h7 : pad7.length = 7) (happ : app.length < 256) (hver : ver.length < 256)
    (hrd : rd.length < 256) (harch : arch.length < 256) :
    get_project_details (metadata_block pad9 app pad3a ver pad3b rd pad7 arch)
      = .ok { metadata := metadata_of app ver rd arch, plugins := ∅ } := by
  have hsm : search_metadata (metadata_block pad9 app pad3a ver pad3b rd pad7 arch) 0
      = .ok (some (metadata_of app ver rd arch,
          (metadata_block pad9 app pad3a ver pad3b rd pad7 arch).length)) := by
    have h := search_metadata_block pad9 app pad3a ver pad3b rd pad7 arch [] h9 h3a h3b h7
    rwa [List.append_nil] at h
  have hlen : 0 < (metadata_block pad9 app pad3a ver pad3b rd pad7 arch).length := by
    simp [metadata_block, APP_VERSION_SEARCH_TERM]
  rw [gpd_meta_found _ _ _ hlen (metadata_block_getD _ _ _ _ _ _ _ _) hsm]
  exact loop_terminal _ _ _ _ _ le_rfl

/-- Witness for C3: the concrete block decodes to Cubase 6.0 with the Version
prefix stripped. -/
theorem C3_witness :
    get_project_details example_metadata_block
      = .ok { metadata := { application := "Cubase", version := "6.0",
                            release_date := "Jan", architecture := "WIN64" },
              plugins := ∅ } := by
  unfold example_metadata_block
  rw [C3_metadata_decoded (List.replicate 9 0) [67, 117, 98, 97, 115, 101, 0]
    (List.replicate 3 0) [86, 101, 114, 115, 105, 111, 110, 32, 54, 46, 48, 0]
    (List.replicate 3 0) [74, 97, 110, 0] (List.replicate 7 0) [87, 73, 78, 54, 52, 0]
    (by decide) (by decide) (by decide) (by decide) (by decide) (by decide) (by decide)
    (by decide)]
  decide

/-- C4: after the metadata marker, a failed decode of the application, version
or release date field aborts the whole extraction with NoApplication,
NoVersion or NoReleaseDate respectively, while a failed decode of the
architecture field (its length byte pointing past the end of the buffer) still
succeeds with architecture Unspecified. -/
theorem C4_mandatory_and_optional (pad9 app pad3a ver pad3b rd pad7 : List Nat) (k : Nat)
    (h9 : pad9.length = 9) (h3a : pad3a.length = 3) (h3b : pad3b.length = 3)
    (h7 : pad7.length = 7) (hk : 0 < k) (hkb : k < 256) (happ : app.length < 256)
    (hver : ver.length < 256) (hrd : rd.length < 256) :
    get_project_details (APP_VERSION_SEARCH_TERM ++ pad9) = .error .NoApplication
    ∧ get_project_details (APP_VERSION_SEARCH_TERM ++ pad9 ++ token app ++ pad3a)
        = .error .NoVersion
    ∧ get_project_details (APP_VERSION_SEARCH_TERM ++ pad9 ++ token app ++ pad3a ++ token ver
        ++ pad3b) = .error .NoReleaseDate
    ∧ get_project_details (APP_VERSION_SEARCH_TERM ++ pad9 ++ token app ++ pad3a ++ token ver
        ++ pad3b ++ token rd ++ pad7 ++ [k])
      = .ok { metadata := { application := token_text app,
                            version := strip_version (token_text ver),
                            release_date := token_text rd,
                            architecture := "Unspecified" }, plugins := ∅ } := by
  refine ⟨?_, ?_, ?_, ?_⟩
  · exact gpd_meta_error _ _ (by simp [APP_VERSION_SEARCH_TERM])
      (getD_zero_app_marker pad9) (search_metadata_trunc_app pad9 h9)
  · refine gpd_meta_error _ _ (by simp [APP_VERSION_SEARCH_TERM]) ?_
      (search_metadata_trunc_ver pad9 app pad3a h9 h3a)
    rw [show APP_VERSION_SEARCH_TERM ++ pad9 ++ token app ++ pad3a
        = APP_VERSION_SEARCH_TERM ++ (pad9 ++ (token app ++ pad3a))
      from by simp only [List.append_assoc]]
    exact getD_zero_app_marker _
  · refine gpd_meta_error _ _ (by simp [APP_VERSION_SEARCH_TERM]) ?_
      (search_metadata_trunc_rd pad9 app pad3a ver pad3b h9 h3a h3b)
    rw [show APP_VERSION_SEARCH_TERM ++ pad9 ++ token app ++ pad3a ++ token ver ++ pad3b
        = APP_VERSION_SEARCH_TERM ++ (pad9 ++ (token app ++ (pad3a ++ (token ver ++ pad3b))))
      from by simp only [List.append_assoc]]
    exact getD_zero_app_marker _
  · have hsm := search_metadata_arch_eof pad9 app pad3a ver pad3b rd pad7 k
      h9 h3a h3b h7 hk
    have hb : (APP_VERSION_SEARCH_TERM ++ pad9 ++ token app ++ pad3a ++ token ver ++ pad3b
        ++ token rd ++ pad7 ++ [k]).getD 0 0 = 80 := by
      rw [show APP_VERSION_SEARCH_TERM ++ pad9 ++ token app ++ pad3a ++ token ver ++ pad3b
          ++ token rd ++ pad7 ++ [k]
          = APP_VERSION_SEARCH_TERM ++ (pad9 ++ (token app ++ (pad3a ++ (token ver
            ++ (pad3b ++ (token rd ++ (pad7 ++ [k])))))))
        from by simp only [List.append_assoc]]
      exact getD_zero_app_marker _
    have hlen : (APP_VERSION_SEARCH_TERM ++ pad9 ++ token app ++ pad3a ++ token ver ++ pad3b
        ++ token rd ++ pad7 ++ [k]).length
        = 21 + (app.length + 1) + 3 + (ver.length + 1) + 3 + (rd.length + 1) + 7 + 1 := by
      simp [APP_VERSION_SEARCH_TERM, token, h9, h3a, h3b, h7] <;> omega
    rw [gpd_meta_found _ _ _ (by omega) hb hsm]
    exact loop_tail_of_some _ _ _ _ ∅
      (fun j hj => search_plugin_none_short _ j (by omega))

/-- Witness for C4 at concrete pads, payloads and a dangling architecture
length byte. -/
theorem C4_witness :
    get_project_details (APP_VERSION_SEARCH_TERM ++ List.replicate 9 0)
      = .error .NoApplication
    ∧ get_project_details (APP_VERSION_SEARCH_TERM ++ List.replicate 9 0 ++ token [65, 0]
        ++ List.replicate 3 0) = .error .NoVersion
    ∧ get_project_details (APP_VERSION_SEARCH_TERM ++ List.replicate 9 0 ++ token [65, 0]
        ++ List.replicate 3 0 ++ token [66, 0] ++ List.replicate 3 0)
      = .error .NoReleaseDate
    ∧ get_project_details (APP_VERSION_SEARCH_TERM ++ List.replicate 9 0 ++ token [65, 0]
        ++ List.replicate 3 0 ++ token [66, 0] ++ List.replicate 3 0 ++ token [67, 0]
        ++ List.replicate 7 0 ++ [5])
      = .ok { metadata := { application := token_text [65, 0],
                            version := strip_version (token_text [66, 0]),
                            release_date := token_text [67, 0],
                            architecture := "Unspecified" }, plugins := ∅ } :=
  C4_mandatory_and_optional (List.replicate 9 0) [65, 0] (List.replicate 3 0) [66, 0]
    (List.replicate 3 0) [67, 0] (List.replicate 7 0) 5 (by decide) (by decide) (by decide)
    (by decide) (by decide) (by decide) (by decide) (by decide) (by decide)

/-- C5: any mandatory field failure aborts the whole extraction immediately
with that error: a metadata matcher failure or a plugin matcher failure at the
current position ends the loop with the same error, and in particular a buffer
that is just the plugin marker plus its 22 padding bytes (the GUID length byte
missing) fails with NoPluginGUID. -/
theorem C5_abort_propagation :
    (∀ (bytes : List Nat) (pls : Finset Plugin) (i fuel : Nat) (e : Error),
      i < bytes.length → bytes.getD i 0 = 80 → search_metadata bytes i = .error e →
      get_project_details_loop bytes none pls i (fuel + 1) = .error e)
    ∧ (∀ (bytes : List Nat) (pls : Finset Plugin) (i fuel : Nat) (e : Error) (m : Metadata),
      i < bytes.length → bytes.getD i 0 = 80 → search_plugin bytes i = .error e →
      get_project_details_loop bytes (some m) pls i (fuel + 1) = .error e)
    ∧ (∀ pad22 : List Nat, pad22.length = 22 →
      get_project_details (PLUGIN_UID_SEARCH_TERM ++ pad22) = .error .NoPluginGUID) := by
  refine ⟨fun bytes pls i fuel e h hb hm => loop_meta_error bytes pls i fuel e h hb hm,
    fun bytes pls i fuel e m h hb hp => loop_plugin_error_of_some bytes pls i fuel m e h hb hp,
    fun pad22 h22 => ?_⟩
  exact gpd_plugin_error _ _ (by simp [PLUGIN_UID_SEARCH_TERM])
    (getD_zero_plug_marker pad22) (search_metadata_at_plugin_marker pad22)
    (search_plugin_trunc_guid pad22 h22)

/-- Witness for C5: a concrete truncated plugin record aborts with
NoPluginGUID, and a concrete metadata failure aborts the loop with
NoApplication. -/
theorem C5_witness :
    get_project_details (PLUGIN_UID_SEARCH_TERM ++ List.replicate 22 0)
      = .error .NoPluginGUID
    ∧ get_project_details_loop (APP_VERSION_SEARCH_TERM ++ List.replicate 9 0) none ∅ 0 1
      = .error .NoApplication :=
  ⟨C5_abort_propagation.2.2 (List.replicate 22 0) (by decide),
   C5_abort_propagation.1 (APP_VERSION_SEARCH_TERM ++ List.replicate 9 0) ∅ 0 0
     .NoApplication (by decide) (by decide) (by decide)⟩

/-- C6: in the plugin matcher the GUID field is mandatory (NoPluginGUID when
its decode fails) and the key field after it must decode to exactly Plugin
Name: any other decoded key aborts the whole extraction with NoPluginName
instead of being treated as a non-match. -/
theorem C6_key_must_be_plugin_name :
    (∀ pad22 : List Nat, pad22.length = 22 →
      search_plugin (PLUGIN_UID_SEARCH_TERM ++ pad22) 0 = .error .NoPluginGUID)
    ∧ (∀ pad22 guid pad3 key suf : List Nat, pad22.length = 22 → pad3.length = 3 →
      guid.length < 256 → key.length < 256 → token_text key ≠ "Plugin Name" →
      get_project_details (PLUGIN_UID_SEARCH_TERM ++ pad22 ++ token guid ++ pad3
        ++ token key ++ suf) = .error .NoPluginName) := by
  refine ⟨fun pad22 h22 => search_plugin_trunc_guid pad22 h22,
    fun pad22 guid pad3 key suf h22 h3 hg hk hkey => ?_⟩
  refine gpd_plugin_error _ _ (by simp [PLUGIN_UID_SEARCH_TERM]) ?_ ?_
    (search_plugin_badkey pad22 guid pad3 key suf h22 h3 hkey)
  · rw [show PLUGIN_UID_SEARCH_TERM ++ pad22 ++ token guid ++ pad3 ++ token key ++ suf
        = PLUGIN_UID_SEARCH_TERM ++ (pad22 ++ (token guid ++ (pad3 ++ (token key ++ suf))))
      from by simp only [List.append_assoc]]
    exact getD_zero_plug_marker _
  · rw [show PLUGIN_UID_SEARCH_TERM ++ pad22 ++ token guid ++ pad3 ++ token key ++ suf
        = PLUGIN_UID_SEARCH_TERM ++ (pad22 ++ (token guid ++ (pad3 ++ (token key ++ suf))))
      from by simp only [List.append_assoc]]
    exact search_metadata_at_plugin_marker _

/-- Witness for C6 with a concrete key field reading X. -/
theorem C6_witness :
    search_plugin (PLUGIN_UID_SEARCH_TERM ++ List.replicate 22 0) 0 = .error .NoPluginGUID
    ∧ get_project_details (PLUGIN_UID_SEARCH_TERM ++ List.replicate 22 0 ++ token [71, 0]
        ++ List.replicate 3 0 ++ token [88, 0] ++ []) = .error .NoPluginName :=
  ⟨C6_key_must_be_plugin_name.1 (List.replicate 22 0) (by decide),
   C6_key_must_be_plugin_name.2 (List.replicate 22 0) [71, 0] (List.replicate 3 0) [88, 0] []
     (by decide) (by decide) (by decide) (by decide) (by decide)⟩

/-- C7: when the key after the plugin name field reads Original Plugin Name,
the matcher skips 5 bytes and decodes a mandatory replacement name (failing
with NoOriginalPluginName when it cannot), and the plugin carried into the
result set holds the original name in place of the first decoded name, also
through the full scanner. -/
theorem C7_original_name_substitution :
    (∀ r : PluginRecordParts, plugin_record_wf r →
      search_plugin (plugin_record_block r) 0
        = .ok (some (plugin_record_plugin r, (plugin_record_block r).length))
      ∧ plugin_record_plugin r
        = { guid := token_text r.guid, name := token_text r.orig_name })
    ∧ (∀ pad22 guid pad3 key pad5 name pad3b okey pad5b : List Nat,
      pad22.length = 22 → pad3.length = 3 → pad5.length = 5 → pad3b.length = 3 →
      pad5b.length = 5 → token_text key = "Plugin Name" →
      token_text okey = "Original Plugin Name" →
      search_plugin (PLUGIN_UID_SEARCH_TERM ++ pad22 ++ token guid ++ pad3 ++ token key
        ++ pad5 ++ token name ++ pad3b ++ (token okey ++ pad5b)) 0
        = .error .NoOriginalPluginName)
    ∧ (∀ (pad9 app pad3a ver pad3b rd pad7 arch : List Nat) (r : PluginRecordParts),
      pad9.length = 9 → pad3a.length = 3 → pad3b.length = 3 → pad7.length = 7 →
      plugin_record_wf r →
      get_project_details (metadata_block pad9 app pad3a ver pad3b rd pad7 arch
          ++ plugin_record_block r)
        = .ok { metadata := metadata_of app ver rd arch,
                plugins := {plugin_record_plugin r} }) := by
  refine ⟨fun r hwf => ?_, ?_, ?_⟩
  · constructor
    · have h := search_plugin_record_at [] r [] hwf
      simpa using h
    · rfl
  · intro pad22 guid pad3 key pad5 name pad3b okey pad5b h22 h3 h5 h3b h5b hkey hokey
    have h := search_plugin_trunc_orig [] pad22 guid pad3 key pad5 name pad3b okey pad5b
      h22 h3 h5 h3b h5b hkey hokey
    simpa using h
  · intro pad9 app pad3a ver pad3b rd pad7 arch r h9 h3a h3b h7 hwf
    have hsm := search_metadata_block pad9 app pad3a ver pad3b rd pad7 arch
      (plugin_record_block r) h9 h3a h3b h7
    have hb : (metadata_block pad9 app pad3a ver pad3b rd pad7 arch
        ++ plugin_record_block r).getD 0 0 = 80 := by
      rw [show metadata_block pad9 app pad3a ver pad3b rd pad7 arch ++ plugin_record_block r
          = APP_VERSION_SEARCH_TERM ++ (pad9 ++ (token app ++ (pad3a ++ (token ver
            ++ (pad3b ++ (token rd ++ (pad7 ++ (token arch ++ plugin_record_block r))))))))
        from by simp only [metadata_block, List.append_assoc]]
      exact getD_zero_app_marker _
    have hlen : 0 < (metadata_block pad9 app pad3a ver pad3b rd pad7 arch
        ++ plugin_record_block r).length := by
      simp [metadata_block, APP_VERSION_SEARCH_TERM]
    rw [gpd_meta_found _ _ _ hlen hb hsm]
    rw [show metadata_block pad9 app pad3a ver pad3b rd pad7 arch ++ plugin_record_block r
        = metadata_block pad9 app pad3a ver pad3b rd pad7 arch
          ++ ([r].map plugin_record_block).join
      from by simp]
    rw [loop_chain (metadata_of app ver rd arch) [r]
      (metadata_block pad9 app pad3a ver pad3b rd pad7 arch) ∅ _
      (by intro r2 h2
          simp only [List.mem_singleton] at h2
          exact h2 ▸ hwf)
      (by simp [metadata_block, APP_VERSION_SEARCH_TERM] <;> omega)]
    simp

/-- Witness for C7: the concrete record decodes to the original name Hive, not
to the first decoded name Track. -/
theorem C7_witness :
    search_plugin (plugin_record_block example_plugin_record) 0
      = .ok (some (plugin_record_plugin example_plugin_record,
          (plugin_record_block example_plugin_record).length))
    ∧ plugin_record_plugin example_plugin_record = { guid := "GUID1", name := "Hive" } := by
  have h := C7_original_name_substitution.1 example_plugin_record (by decide)
  exact ⟨h.1, by decide⟩

/-- C8: when the key decoded after the plugin name field is anything other
than Original Plugin Name, the matcher succeeds with the previously decoded
name standing and its returned cursor is the length of everything before that
key field, so the unrecognized key is not consumed as part of the record; the
scanner continues exactly at the returned cursor in the next iteration, and
thus re-examines the key field. -/
theorem C8_unrecognized_key (pad22 guid pad3 key pad5 name pad3b key2 suf : List Nat)
    (h22 : pad22.length = 22) (h3 : pad3.length = 3) (h5 : pad5.length = 5)
    (h3b : pad3b.length = 3) (hkey : token_text key = "Plugin Name")
    (hkey2 : token_text key2 ≠ "Original Plugin Name") :
    search_plugin (PLUGIN_UID_SEARCH_TERM ++ pad22 ++ token guid ++ pad3 ++ token key
        ++ pad5 ++ token name ++ pad3b ++ (token key2 ++ suf)) 0
      = .ok (some ({ guid := token_text guid, name := token_text name },
          (PLUGIN_UID_SEARCH_TERM ++ pad22 ++ token guid ++ pad3 ++ token key ++ pad5
            ++ token name ++ pad3b).length))
    ∧ (∀ (bytes : List Nat) (pls : Finset Plugin) (i fuel : Nat) (m : Metadata)
        (p : Plugin) (j : Nat),
        i < bytes.length → bytes.getD i 0 = 80 →
        search_plugin bytes i = .ok (some (p, j)) →
        get_project_details_loop bytes (some m) pls i (fuel + 1)
          = get_project_details_loop bytes (some m) (insert p pls) j fuel) := by
  constructor
  · have h := search_plugin_unrecognized [] pad22 guid pad3 key pad5 name pad3b key2 suf
      h22 h3 h5 h3b hkey hkey2
    simp only [List.nil_append, List.length_nil, Nat.zero_add] at h
    rw [show (33 : Nat) + (guid.length + 1) + 3 + (key.length + 1) + 5 + (name.length + 1) + 3
        = (PLUGIN_UID_SEARCH_TERM ++ pad22 ++ token guid ++ pad3 ++ token key ++ pad5
          ++ token name ++ pad3b).length
      from by simp [PLUGIN_UID_SEARCH_TERM, token, h22, h3, h5, h3b] <;> omega] at h
    exact h
  · exact fun bytes pls i fuel m p j h hb hp =>
      loop_plugin_found_of_some bytes pls i fuel m p j h hb hp

/-- Witness for C8: a concrete record followed by a key reading Z keeps the
first decoded name, stops at the start of the key field, and the scanner
resumes there. -/
theorem C8_witness :
    search_plugin (PLUGIN_UID_SEARCH_TERM ++ List.replicate 22 0 ++ token [71, 0]
        ++ List.replicate 3 0 ++ token [80, 108, 117, 103, 105, 110, 32, 78, 97, 109, 101, 0]
        ++ List.replicate 5 0 ++ token [78, 0] ++ List.replicate 3 0
        ++ (token [90, 0] ++ [])) 0
      = .ok (some ({ guid := token_text [71, 0], name := token_text [78, 0] },
          (PLUGIN_UID_SEARCH_TERM ++ List.replicate 22 0 ++ token [71, 0]
            ++ List.replicate 3 0
            ++ token [80, 108, 117, 103, 105, 110, 32, 78, 97, 109, 101, 0]
            ++ List.replicate 5 0 ++ token [78, 0] ++ List.replicate 3 0).length))
    ∧ get_project_details_loop (PLUGIN_UID_SEARCH_TERM ++ List.replicate 22 0 ++ token [71, 0]
        ++ List.replicate 3 0 ++ token [80, 108, 117, 103, 105, 110, 32, 78, 97, 109, 101, 0]
        ++ List.replicate 5 0 ++ token [78, 0] ++ List.replicate 3 0
        ++ (token [90, 0] ++ []))
        (some { application := "Cubase", version := "1", release_date := "d",
                architecture := "WIN64" }) ∅ 0 1
      = get_project_details_loop (PLUGIN_UID_SEARCH_TERM ++ List.replicate 22 0
          ++ token [71, 0] ++ List.replicate 3 0
          ++ token [80, 108, 117, 103, 105, 110, 32, 78, 97, 109, 101, 0]
          ++ List.replicate 5 0 ++ token [78, 0] ++ List.replicate 3 0
          ++ (token [90, 0] ++ []))
          (some { application := "Cubase", version := "1", release_date := "d",
                  architecture := "WIN64" })
          (insert { guid := "G", name := "N" } ∅) 63 0 := by
  have h := C8_unrecognized_key (List.replicate 22 0) [71, 0] (List.replicate 3 0)
    [80, 108, 117, 103, 105, 110, 32, 78, 97, 109, 101, 0] (List.replicate 5 0) [78, 0]
    (List.replicate 3 0) [90, 0] [] (by decide) (by decide) (by decide) (by decide)
    (by decide) (by decide)
  refine ⟨h.1, ?_⟩
  exact h.2 _ ∅ 0 0
    { application := "Cubase", version := "1", release_date := "d", architecture := "WIN64" }
    { guid := "G", name := "N" } 63 (by decide) (by decide) (by decide)

/-- C9: a buffer made of a well-formed metadata block followed by the
concatenation of well-formed plugin records yields the Project whose plugin
set is exactly the set of decoded records; with pairwise distinct decoded
plugins the set has exactly as many members as records, duplicates collapsing
by construction of the set, and plugin equality is componentwise. -/
theorem C9_plugin_set (pad9 app pad3a ver pad3b rd pad7 arch : List Nat)
    (L : List PluginRecordParts)
    (h9 : pad9.length = 9) (h3a : pad3a.length = 3) (h3b : pad3b.length = 3)
    (h7 : pad7.length = 7) (hwf : ∀ r ∈ L, plugin_record_wf r) :
    get_project_details (metadata_block pad9 app pad3a ver pad3b rd pad7 arch
        ++ (L.map plugin_record_block).join)
      = .ok { metadata := metadata_of app ver rd arch,
              plugins := (L.map plugin_record_plugin).toFinset }
    ∧ ((L.map plugin_record_plugin).Nodup →
        (L.map plugin_record_plugin).toFinset.card = L.length)
    ∧ (∀ p q : Plugin, p = q ↔ p.guid = q.guid ∧ p.name = q.name) := by
  refine ⟨?_, fun hnd => ?_, fun p q => ?_⟩
  · have hsm := search_metadata_block pad9 app pad3a ver pad3b rd pad7 arch
      ((L.map plugin_record_block).join) h9 h3a h3b h7
    have hb : (metadata_block pad9 app pad3a ver pad3b rd pad7 arch
        ++ (L.map plugin_record_block).join).getD 0 0 = 80 := by
      rw [show metadata_block pad9 app pad3a ver pad3b rd pad7 arch
          ++ (L.map plugin_record_block).join
          = APP_VERSION_SEARCH_TERM ++ (pad9 ++ (token app ++ (pad3a ++ (token ver
            ++ (pad3b ++ (token rd ++ (pad7 ++ (token arch
              ++ (L.map plugin_record_block).join))))))))
        from by simp only [metadata_block, List.append_assoc]]
      exact getD_zero_app_marker _
    have hlen : 0 < (metadata_block pad9 app pad3a ver pad3b rd pad7 arch
        ++ (L.map plugin_record_block).join).length := by
      simp [metadata_block, APP_VERSION_SEARCH_TERM]
    rw [gpd_meta_found _ _ _ hlen hb hsm]
    rw [loop_chain (metadata_of app ver rd arch) L
      (metadata_block pad9 app pad3a ver pad3b rd pad7 arch) ∅ _ hwf
      (by simp [metadata_block, APP_VERSION_SEARCH_TERM] <;> omega)]
    simp
  · rw [List.toFinset_card_of_nodup hnd, List.length_map]
  · cases p
    cases q
    simp

/-- Witness for C9: two distinct concrete records produce a two member set. -/
theorem C9_witness :
    get_project_details (metadata_block (List.replicate 9 0) [67, 0] (List.replicate 3 0)
        [86, 0] (List.replicate 3 0) [68, 0] (List.replicate 7 0) [87, 0]
        ++ ([example_plugin_record, example_plugin_record2].map plugin_record_block).join)
      = .ok { metadata := metadata_of [67, 0] [86, 0] [68, 0] [87, 0],
              plugins := ([example_plugin_record, example_plugin_record2].map
                plugin_record_plugin).toFinset }
    ∧ ([example_plugin_record, example_plugin_record2].map
        plugin_record_plugin).toFinset.card = 2
    ∧ (({ guid := "a", name := "b" } : Plugin) = { guid := "a", name := "b" }
        ↔ ("a" = "a" ∧ "b" = "b")) := by
  have h := C9_plugin_set (List.replicate 9 0) [67, 0] (List.replicate 3 0) [86, 0]
    (List.replicate 3 0) [68, 0] (List.replicate 7 0) [87, 0]
    [example_plugin_record, example_plugin_record2]
    (by decide) (by decide) (by decide) (by decide) (by decide)
  exact ⟨h.1, h.2.1 (by decide), h.2.2 _ _⟩

/-- C10: every buffer read is bounds checked (get_bytes answers none exactly
for an out of bounds request and otherwise the in-bounds slice), the cursor
strictly increases whenever a matcher consumes a record, and the scan loop is
insensitive to its fuel bound once the fuel covers the remaining bytes: the
scan terminates within one iteration per remaining byte on every input and
always produces a Project or one of the typed errors. -/
theorem C10_safety :
    (∀ (bytes : List Nat) (i l : Nat), get_bytes bytes i l = none ↔ bytes.length < i + l)
    ∧ (∀ (bytes : List Nat) (i l : Nat) (s : List Nat), get_bytes bytes i l = some s →
        i + l ≤ bytes.length ∧ s = (bytes.drop i).take l)
    ∧ (∀ (bytes : List Nat) (i : Nat) (m : Metadata) (j : Nat),
        search_metadata bytes i = .ok (some (m, j)) → i < j)
    ∧ (∀ (bytes : List Nat) (i : Nat) (p : Plugin) (j : Nat),
        search_plugin bytes i = .ok (some (p, j)) → i < j)
    ∧ (∀ (bytes : List Nat) (fuel fuel2 : Nat) (md : Option Metadata)
        (pls : Finset Plugin) (i : Nat),
        bytes.length - i ≤ fuel → bytes.length - i ≤ fuel2 →
        get_project_details_loop bytes md pls i fuel
          = get_project_details_loop bytes md pls i fuel2) :=
  ⟨fun bytes i l => get_bytes_eq_none_iff bytes i l,
   fun bytes i l s h => (get_bytes_eq_some_iff bytes i l s).mp h,
   fun _ _ _ _ h => search_metadata_lt h,
   fun _ _ _ _ h => search_plugin_lt h,
   fun bytes fuel fuel2 md pls i h1 h2 =>
     get_project_details_loop_fuel bytes fuel fuel2 md pls i h1 h2⟩

/-- Witness for C10 at concrete inputs: an out of bounds read, a cursor
advanced by a concrete metadata match, and fuel insensitivity on a concrete
buffer. -/
theorem C10_witness :
    get_bytes ([] : List Nat) 0 1 = none
    ∧ (0 : Nat) < 67
    ∧ get_project_details_loop [1, 2] none ∅ 0 2 = get_project_details_loop [1, 2] none ∅ 0 5 := by
  refine ⟨(C10_safety.1 [] 0 1).mpr (by decide), ?_, ?_⟩
  · exact C10_safety.2.2.1 example_metadata_block 0
      (metadata_of [67, 117, 98, 97, 115, 101, 0]
        [86, 101, 114, 115, 105, 111, 110, 32, 54, 46, 48, 0] [74, 97, 110, 0]
        [87, 73, 78, 54, 52, 0]) 67 (by decide)
  · exact C10_safety.2.2.2.2 [1, 2] 2 5 none ∅ 0 (by decide) (by decide)

end Cubase
